import Mathlib

/-!
Shallow embedding of the saga-based checkout system (Order, Stock, Payment,
Orchestrator) for verification of its specification.

The embedding models:
* the Redis-backed key-value state of each service as association lists
  (`kvGet` / `kvSet` / `kvRemove` mirror `GET` / `SET` / `DELETE`; a
  `WATCH .. MULTI/EXEC` block is an atomic state update, since the handlers
  run the whole read-check-write block again on a `WatchError`);
* bus events (JSON dicts with a `type` and `correlation_id` key) as a
  structure whose unused fields keep their defaults;
* publishing (`KafkaProducerSingleton.send_event(topic, event_key, event_value)`)
  as a `Published` record appended to an output list;
* transient store faults as an explicit per-attempt fault schedule threaded
  through each handler's retry loop, mirroring the Python `try/except`
  clauses and their ordering (in redis-py, `WatchError`, `ConnectionError`,
  `TimeoutError` and `MasterNotFoundError` are all subclasses of
  `RedisError`, and `MasterNotFoundError` subclasses `ConnectionError`);
* the orchestrator's saga engine (`common/saga/saga.py`) as a step function
  on the manager's in-memory saga map, parameterised by whether the
  transaction/compensation callables are genuinely awaitable coroutine
  functions, or (as in `orchestrator/app.py`) plain synchronous functions
  whose return value `None` makes the engine's `await` raise a `TypeError`
  right after the callable's side effect has run.
-/

namespace CheckoutSaga

/-! ## Generic key-value store (association list) -/

/-- Lookup in an association list: the first binding of the key, mirroring a
Redis `GET`. -/
def kvGet {α : Type} (m : List (String × α)) (k : String) : Option α :=
  match m with
  | [] => none
  | (k', v) :: rest => if k' = k then some v else kvGet rest k

/-- Write to an association list: overwrite the first binding of the key or
append a new one, mirroring a Redis `SET`. -/
def kvSet {α : Type} (m : List (String × α)) (k : String) (v : α) :
    List (String × α) :=
  match m with
  | [] => [(k, v)]
  | (k', v') :: rest => if k' = k then (k, v) :: rest else (k', v') :: kvSet rest k v

/-- Delete a key from an association list, mirroring a Redis `DELETE` (and
`del` on a Python dict). -/
def kvRemove {α : Type} (m : List (String × α)) (k : String) :
    List (String × α) :=
  match m with
  | [] => []
  | (k', v') :: rest => if k' = k then rest else (k', v') :: kvRemove rest k

/-! ## Events and publications -/

/-- A bus event: a JSON object with mandatory `type` and `correlation_id`
keys plus the domain payload keys.  Fields the originating dict does not set
keep their default value; `credit` and `error` are `Option`s because the
handlers materialise these keys only on some paths. -/
structure Event where
  etype : String
  correlationId : String
  orderId : String := ""
  userId : String := ""
  itemId : String := ""
  amount : Int := 0
  quantity : Int := 0
  price : Int := 0
  stock : Int := 0
  totalCost : Int := 0
  items : List (String × Int) := []
  credit : Option Int := none
  error : Option String := none
deriving DecidableEq, Repr

/-- One call to `KafkaProducerSingleton.send_event(topic, event_key, event_value)`:
the message goes to `topic` with partition key `key`. -/
structure Published where
  topic : String
  key : String
  event : Event
deriving DecidableEq, Repr

/-- The event-type constants of `common/kafka/events_config.py`. -/
def EVENT_SUBTRACT_STOCK : String := "SubtractStock"

def EVENT_ADD_STOCK : String := "AddStock"

def EVENT_FIND_ITEM : String := "FindItem"

def EVENT_PAY : String := "Pay"

def EVENT_REFUND : String := "Refund"

def EVENT_CHECKOUT_REQUESTED : String := "CheckoutRequested"

def EVENT_STOCK_SUBTRACTED : String := "StockSubtracted"

def EVENT_STOCK_ERROR : String := "StockError"

def EVENT_ITEM_FOUND : String := "ItemFound"

def EVENT_ITEM_NOT_FOUND : String := "ItemNotFound"

def EVENT_PAYMENT_SUCCESS : String := "PaymentProcessed"

def EVENT_PAYMENT_ERROR : String := "PaymentError"

def EVENT_CHECKOUT_SUCCESS : String := "CheckoutSuccess"

def EVENT_CHECKOUT_FAILED : String := "CheckoutFailed"

def EVENT_REFUND_SUCCESS : String := "RefundProcessed"

def EVENT_REFUND_ERROR : String := "RefundError"

def EVENT_STOCK_COMPENSATED : String := "StockCompensated"

def EVENT_STOCK_COMPENSATION_FAILED : String := "StockCompensationFailed"

/-- The shared error marker `DB_ERROR_STR` of the services. -/
def DB_ERROR_STR : String := "DB error"

/-- Modelled from the spec: `common/kafka/topics_config.py` is not under
`src/`, but section 6 of the specification (and the orchestrator's own
topic lists) fix the topic names; `STOCK_TOPIC = [stock-operations,
stock-responses]` and `PAYMENT_TOPIC = [payment-operations,
payment-responses]`. -/
def STOCK_RESPONSES_TOPIC : String := "stock-responses"

/-- Modelled from the spec: see `STOCK_RESPONSES_TOPIC`. -/
def PAYMENT_RESPONSES_TOPIC : String := "payment-responses"

/-! ## Transient store faults

A fault schedule lists, per iteration of a handler's retry loop, the
exception the store raised during that attempt (`[]` means the next attempt
runs to completion).  The predicates mirror redis-py's exception hierarchy:
every listed fault is a `RedisError`, so in `stock/app.py`, whose clause
order is `except WatchError` / `except RedisError` /
`except (ConnectionError, TimeoutError, MasterNotFoundError)`, the third
clause is unreachable. -/

inductive StoreFault where
  | watchErr
  | connErr
  | timeoutErr
  | masterNotFound
  | otherRedis
deriving DecidableEq, Repr

/-- Whether the fault is a `WatchError` (first `except` clause of every
handler's loop). -/
def StoreFault.isWatch : StoreFault → Bool
  | .watchErr => true
  | _ => false

/-- Python's `str(e)` on the caught exception, as appended to the payment
handler's `DB error` marker. -/
def excStr : StoreFault → String
  | .watchErr => "WatchError"
  | .connErr => "Connection refused"
  | .timeoutErr => "Timeout reading from socket"
  | .masterNotFound => "No master found"
  | .otherRedis => "Redis error"

/-! ## Stock service (`stock/app.py`) -/

/-- The `StockValue` msgspec struct of `stock/app.py`. -/
structure StockValue where
  stock : Int
  price : Int
deriving DecidableEq, Repr

/-- A stored domain value together with the expiry passed to the `SET` that
last wrote it (`ex = none` when the `SET` carried no `ex=` argument). -/
structure StockEntry where
  val : StockValue
  ex : Option Nat
deriving DecidableEq, Repr

/-- A stored idempotency record: the outcome event as it was published, with
the expiry the `SET` gave it. -/
structure IdemEntry where
  event : Event
  ex : Option Nat
deriving DecidableEq, Repr

/-- The stock service's Redis state.  Domain item keys and idempotency keys
live in one keyspace in Redis; they are kept in two maps here because the
item ids and the `<event_type>:<correlation_id>` idempotency keys never
collide. -/
structure StockDb where
  items : List (String × StockEntry)
  idem : List (String × IdemEntry)
deriving DecidableEq, Repr

/-- Outcome of one stock handler run: the final store state, the events
published (in order), and whether an exception escaped the handler
(`crashed = true` means the bus adapter never gets to acknowledge). -/
structure StockResult where
  db : StockDb
  published : List Published
  crashed : Bool
deriving DecidableEq, Repr

/-- The read phase of `remove_stock_event`: for each `(item_id, amount)` the
loop `GET`s the current store value (reads always go to the store, never to
the accumulated `new_items` dict), fails the whole command on a missing item
or a negative result, and otherwise records the updated entry in `new_items`
(a Python dict, hence `kvSet`: a later duplicate id overwrites the earlier
entry).  On failure the code mutates the event and publishes it at once. -/
def removeReadLoop (db : StockDb) (event : Event) :
    List (String × Int) → List (String × StockValue) →
    Except Event (List (String × StockValue))
  | [], newItems => .ok newItems
  | (itemId, amount) :: rest, newItems =>
    match kvGet db.items itemId with
    | none =>
      .error { event with error := some ("ITEM " ++ itemId ++ " NOT FOUND"),
                          etype := EVENT_STOCK_ERROR }
    | some entry =>
      let newStock := entry.val.stock - amount
      if newStock < 0 then
        .error { event with
                   error := some ("ITEM " ++ itemId ++
                     " STOCK CANNOT GET REDUCED BELOW ZERO"),
                   etype := EVENT_STOCK_ERROR }
      else
        removeReadLoop db event rest
          (kvSet newItems itemId { stock := newStock, price := entry.val.price })

/-- The retry loop of `remove_stock_event` (`while attempt < max_retries`
with `max_retries = 3`).  Each schedule entry is the fault of one loop
iteration; an empty schedule means the attempt runs to completion: the read
phase, then one `MULTI/EXEC` writing every updated item with `ex=3600` and
the success outcome under the idempotency key with `ex=3600`, then the
publish.  A `WatchError` just repeats the loop.  Any other fault is caught
by the `except RedisError` clause (all modelled faults are `RedisError`
subclasses, so the later `except (ConnectionError, TimeoutError,
MasterNotFoundError)` clause — the only one incrementing `attempt` — is
unreachable): it mutates the event to a `StockError` with the `DB error`
marker, publishes it, and falls through to the next loop iteration with
`attempt` unchanged. -/
def removeStockGo (idemKey : String) (event : Event) (db : StockDb)
    (attempt : Nat) : List StoreFault → StockResult
  | [] =>
    if attempt < 3 then
      match removeReadLoop db event event.items [] with
      | .error errEvent =>
        { db := db,
          published := [⟨STOCK_RESPONSES_TOPIC, event.correlationId, errEvent⟩],
          crashed := false }
      | .ok newItems =>
        let outEvent := { event with etype := EVENT_STOCK_SUBTRACTED }
        let db' : StockDb :=
          { items := newItems.foldl
              (fun m p => kvSet m p.1 ⟨p.2, some 3600⟩) db.items,
            idem := kvSet db.idem idemKey ⟨outEvent, some 3600⟩ }
        { db := db',
          published := [⟨STOCK_RESPONSES_TOPIC, event.correlationId, outEvent⟩],
          crashed := false }
    else
      { db := db, published := [], crashed := false }
  | f :: rest =>
    if attempt < 3 then
      if f.isWatch then
        removeStockGo idemKey event db attempt rest
      else
        let errEvent := { event with error := some DB_ERROR_STR,
                                     etype := EVENT_STOCK_ERROR }
        let r := removeStockGo idemKey errEvent db attempt rest
        { r with published :=
            ⟨STOCK_RESPONSES_TOPIC, errEvent.correlationId, errEvent⟩ :: r.published }
    else
      { db := db, published := [], crashed := false }

/-- `remove_stock_event(event, idempotency_key)` under the given fault
schedule. -/
def remove_stock_event (event : Event) (idemKey : String) (db : StockDb)
    (schedule : List StoreFault) : StockResult :=
  removeStockGo idemKey event db 0 schedule

/-- The read phase of `add_stock_event`.  On a missing item the code sets
`event[error]` and `event[type] = StockCompensationFailed` but does not
return, so the following `msgpack.decode(raw_value)` of `None` raises a
`TypeError` that no `except` clause of the loop catches: the handler crashes
without publishing anything. -/
def addReadLoop (db : StockDb) (event : Event) :
    List (String × Int) → List (String × StockValue) →
    Except Unit (List (String × StockValue))
  | [], newItems => .ok newItems
  | (itemId, amount) :: rest, newItems =>
    match kvGet db.items itemId with
    | none => .error ()
    | some entry =>
      addReadLoop db event rest
        (kvSet newItems itemId
          { stock := entry.val.stock + amount, price := entry.val.price })

/-- The retry loop of `add_stock_event` (`max_retries = 3`).  A completed
attempt sets `event[type] = StockCompensated`, writes every updated item
with a plain `SET` (no expiry) and the outcome under the idempotency key
with `ex=3600` in one `MULTI/EXEC`, and publishes the outcome.  The fault
clauses mirror `remove_stock_event`: a non-watch fault is caught by
`except RedisError`, which publishes a `StockCompensationFailed` with the
`DB error` marker and falls through to another iteration. -/
def addStockGo (idemKey : String) (event : Event) (db : StockDb)
    (attempt : Nat) : List StoreFault → StockResult
  | [] =>
    if attempt < 3 then
      match addReadLoop db event event.items [] with
      | .error () => { db := db, published := [], crashed := true }
      | .ok newItems =>
        let outEvent := { event with etype := EVENT_STOCK_COMPENSATED }
        let db' : StockDb :=
          { items := newItems.foldl
              (fun m p => kvSet m p.1 ⟨p.2, none⟩) db.items,
            idem := kvSet db.idem idemKey ⟨outEvent, some 3600⟩ }
        { db := db',
          published := [⟨STOCK_RESPONSES_TOPIC, event.correlationId, outEvent⟩],
          crashed := false }
    else
      { db := db, published := [], crashed := false }
  | f :: rest =>
    if attempt < 3 then
      if f.isWatch then
        addStockGo idemKey event db attempt rest
      else
        let errEvent := { event with error := some DB_ERROR_STR,
                                     etype := EVENT_STOCK_COMPENSATION_FAILED }
        let r := addStockGo idemKey errEvent db attempt rest
        { r with published :=
            ⟨STOCK_RESPONSES_TOPIC, errEvent.correlationId, errEvent⟩ :: r.published }
    else
      { db := db, published := [], crashed := false }

/-- `add_stock_event(event, idempotency_key)` under the given fault
schedule. -/
def add_stock_event (event : Event) (idemKey : String) (db : StockDb)
    (schedule : List StoreFault) : StockResult :=
  addStockGo idemKey event db 0 schedule

/-- `find_item_event(event)`: read-only; a found item answers `ItemFound`
with the stock and price, anything else (`abort` from a missing item) is
caught by the blanket `except Exception` and answers `ItemNotFound`. -/
def find_item_event (event : Event) (db : StockDb) : StockResult :=
  match kvGet db.items event.itemId with
  | some entry =>
    { db := db,
      published := [⟨STOCK_RESPONSES_TOPIC, event.correlationId,
        { event with etype := EVENT_ITEM_FOUND,
                     stock := entry.val.stock, price := entry.val.price }⟩],
      crashed := false }
  | none =>
    { db := db,
      published := [⟨STOCK_RESPONSES_TOPIC, event.correlationId,
        { event with etype := EVENT_ITEM_NOT_FOUND }⟩],
      crashed := false }

/-- `handle_events(event)` of `stock/app.py`: `FindItem` is answered without
idempotency recording; otherwise the idempotency key
`<event_type>:<correlation_id>` is read first and, when present, the stored
outcome is republished verbatim (keyed by the incoming event's
`correlation_id`) without touching domain state; otherwise the command
dispatches on its type. -/
def handle_events (event : Event) (db : StockDb)
    (schedule : List StoreFault) : StockResult :=
  if event.etype = EVENT_FIND_ITEM then
    find_item_event event db
  else
    let idemKey := event.etype ++ ":" ++ event.correlationId
    match kvGet db.idem idemKey with
    | some stored =>
      { db := db,
        published := [⟨STOCK_RESPONSES_TOPIC, event.correlationId, stored.event⟩],
        crashed := false }
    | none =>
      if event.etype = EVENT_ADD_STOCK then
        add_stock_event event idemKey db schedule
      else if event.etype = EVENT_SUBTRACT_STOCK then
        remove_stock_event event idemKey db schedule
      else
        { db := db, published := [], crashed := false }

/-- Fault-free `handle_events` applied `k + 1` times in sequence, returning
the final state and the publications of the last delivery. -/
def iterate_handle_events (event : Event) (db : StockDb) : Nat → StockResult
  | 0 => handle_events event db []
  | k + 1 => handle_events event (iterate_handle_events event db k).db []

/-! ## Payment service (`payment/app.py`) -/

/-- The payment service's Redis state: `UserValue` structs keyed by user id
(users are written with plain `SET`, so they carry no expiry) and
idempotency records. -/
structure PaymentDb where
  users : List (String × Int)
  idem : List (String × IdemEntry)
deriving DecidableEq, Repr

/-- Outcome of one payment handler run. -/
structure PaymentResult where
  db : PaymentDb
  published : List Published
deriving DecidableEq, Repr

/-- The retry loop of `handle_pay_event` (`max_retries = 5`).  A completed
attempt: a missing user or `credit - amount < 0` stores a `PaymentError`
under the idempotency key with `ex=3600` and publishes it without touching
the user; otherwise one `MULTI/EXEC` writes the decreased credit and the
`PaymentProcessed` outcome (carrying the new credit) under the idempotency
key, and the outcome is published.  A `WatchError` repeats the loop; the
combined `except (ConnectionError, TimeoutError, MasterNotFoundError,
RedisError)` clause increments `attempt`, and on `attempt >= 5` stores and
publishes a `PaymentError` whose error is `DB error` plus `str(e)`. -/
def payGo (idemKey : String) (event : Event) (db : PaymentDb)
    (attempt : Nat) : List StoreFault → PaymentResult
  | [] =>
    if attempt < 5 then
      match kvGet db.users event.userId with
      | none =>
        let errEvent := { event with error := some "USER NOT FOUND",
                                     etype := EVENT_PAYMENT_ERROR }
        { db := { db with idem := kvSet db.idem idemKey ⟨errEvent, some 3600⟩ },
          published := [⟨PAYMENT_RESPONSES_TOPIC, event.correlationId, errEvent⟩] }
      | some credit =>
        let newCredit := credit - event.amount
        if newCredit < 0 then
          let errEvent := { event with error := some "INSUFFICIENT FUNDS",
                                       etype := EVENT_PAYMENT_ERROR }
          { db := { db with idem := kvSet db.idem idemKey ⟨errEvent, some 3600⟩ },
            published := [⟨PAYMENT_RESPONSES_TOPIC, event.correlationId, errEvent⟩] }
        else
          let outEvent := { event with credit := some newCredit,
                                       etype := EVENT_PAYMENT_SUCCESS }
          { db := { users := kvSet db.users event.userId newCredit,
                    idem := kvSet db.idem idemKey ⟨outEvent, some 3600⟩ },
            published := [⟨PAYMENT_RESPONSES_TOPIC, event.correlationId, outEvent⟩] }
    else
      { db := db, published := [] }
  | f :: rest =>
    if attempt < 5 then
      if f.isWatch then
        payGo idemKey event db attempt rest
      else
        if attempt + 1 ≥ 5 then
          let errEvent := { event with error := some (DB_ERROR_STR ++ excStr f),
                                       etype := EVENT_PAYMENT_ERROR }
          { db := { db with idem := kvSet db.idem idemKey ⟨errEvent, some 3600⟩ },
            published := [⟨PAYMENT_RESPONSES_TOPIC, event.correlationId, errEvent⟩] }
        else
          payGo idemKey event db (attempt + 1) rest
    else
      { db := db, published := [] }

/-- `handle_pay_event(event, idempotency_key)` under the given fault
schedule. -/
def handle_pay_event (event : Event) (idemKey : String) (db : PaymentDb)
    (schedule : List StoreFault) : PaymentResult :=
  payGo idemKey event db 0 schedule

/-- The retry loop of `handle_refund_event` (`max_retries = 5`, but no
clause ever increments `attempt`).  A completed attempt: a missing user
stores and publishes a `RefundError`; otherwise one `MULTI/EXEC` writes the
increased credit and the `RefundProcessed` outcome (carrying the new credit)
under the idempotency key, and publishes it.  Both `except` clauses just
repeat the loop, so transient faults are retried without bound and without
publishing anything. -/
def refundGo (idemKey : String) (event : Event) (db : PaymentDb)
    (attempt : Nat) : List StoreFault → PaymentResult
  | [] =>
    if attempt < 5 then
      match kvGet db.users event.userId with
      | none =>
        let errEvent := { event with error := some "USER NOT FOUND",
                                     etype := EVENT_REFUND_ERROR }
        { db := { db with idem := kvSet db.idem idemKey ⟨errEvent, some 3600⟩ },
          published := [⟨PAYMENT_RESPONSES_TOPIC, event.correlationId, errEvent⟩] }
      | some credit =>
        let newCredit := credit + event.amount
        let outEvent := { event with credit := some newCredit,
                                     etype := EVENT_REFUND_SUCCESS }
        { db := { users := kvSet db.users event.userId newCredit,
                  idem := kvSet db.idem idemKey ⟨outEvent, some 3600⟩ },
          published := [⟨PAYMENT_RESPONSES_TOPIC, event.correlationId, outEvent⟩] }
    else
      { db := db, published := [] }
  | _ :: rest =>
    if attempt < 5 then
      refundGo idemKey event db attempt rest
    else
      { db := db, published := [] }

/-- `handle_refund_event(event, idempotency_key)` under the given fault
schedule. -/
def handle_refund_event (event : Event) (idemKey : String) (db : PaymentDb)
    (schedule : List StoreFault) : PaymentResult :=
  refundGo idemKey event db 0 schedule

/-- `handle_event(event)` of `payment/app.py`: the idempotency key
`<event_type>:<correlation_id>` is read first; when present the stored
outcome is republished verbatim (keyed by the stored event's
`correlation_id`) and domain state is untouched; otherwise the command
dispatches on its type (anything other than `Pay` / `Refund` is ignored). -/
def handle_event (event : Event) (db : PaymentDb)
    (schedule : List StoreFault) : PaymentResult :=
  let idemKey := event.etype ++ ":" ++ event.correlationId
  match kvGet db.idem idemKey with
  | some stored =>
    { db := db,
      published := [⟨PAYMENT_RESPONSES_TOPIC, stored.event.correlationId,
        stored.event⟩] }
  | none =>
    if event.etype = EVENT_PAY then
      handle_pay_event event idemKey db schedule
    else if event.etype = EVENT_REFUND then
      handle_refund_event event idemKey db schedule
    else
      { db := db, published := [] }

/-- Fault-free `handle_event` applied `k + 1` times in sequence. -/
def iterate_handle_event (event : Event) (db : PaymentDb) : Nat → PaymentResult
  | 0 => handle_event event db []
  | k + 1 => handle_event event (iterate_handle_event event db k).db []

/-! ## Payment logic draft (`payment/payment_logic.py`) -/

/-- The error side of `payment_logic.py`'s `Result` pairs. -/
inductive PaymentLogicErr where
  | dbError
  | userNotFound
  | notEnoughCredit
deriving DecidableEq, Repr

/-- `PaymentLogic.remove_credit(user_id, amount)` (fault-free store): a
missing user returns `(0, UserNotFoundError)`; a decrement below zero
returns `(0, NotEnoughCreditError)` without writing; otherwise the decreased
credit is written back and returned.  The store is threaded explicitly. -/
def remove_credit (users : List (String × Int)) (userId : String)
    (amount : Int) : List (String × Int) × Int × Option PaymentLogicErr :=
  match kvGet users userId with
  | none => (users, 0, some .userNotFound)
  | some credit =>
    let newCredit := credit - amount
    if newCredit < 0 then
      (users, 0, some .notEnoughCredit)
    else
      (kvSet users userId newCredit, newCredit, none)

/-! ## Order service (`order/app.py`) -/

/-- The `OrderValue` msgspec struct of `order/app.py`. -/
structure OrderValue where
  paid : Bool
  items : List (String × Int)
  userId : String
  totalCost : Int
deriving DecidableEq, Repr

/-- The order service's Redis state: orders, idempotency records and the
per-correlation response streams `order_response:<correlation_id>`
(`XADD` appends; the blocked HTTP handler reads the first entry). -/
structure OrderDb where
  orders : List (String × OrderValue)
  idem : List (String × IdemEntry)
  streams : List (String × List Event)
deriving DecidableEq, Repr

/-- Outcome of one order response-consumer run. -/
structure OrderResult where
  db : OrderDb
  raised : Bool
deriving DecidableEq, Repr

/-- `update_items(items, item_id, quantity)`: merge the quantity into an
existing entry of the same item id, else append. -/
def update_items (items : List (String × Int)) (itemId : String)
    (quantity : Int) : List (String × Int) :=
  match items with
  | [] => [(itemId, quantity)]
  | (id', q') :: rest =>
    if id' = itemId then (itemId, q' + quantity) :: rest
    else (id', q') :: update_items rest itemId quantity

/-- `XADD` on a response stream. -/
def streamAdd (streams : List (String × List Event)) (name : String)
    (event : Event) : List (String × List Event) :=
  match kvGet streams name with
  | none => kvSet streams name [event]
  | some entries => kvSet streams name (entries ++ [event])

/-- `handle_find_item_event` (fault-free store): `ItemNotFound` records the
idempotency key (`ex=3600`) and appends to the stream; `ItemFound` loads the
order (a missing order returns without writing), merges the item, bumps
`total_cost` by `quantity * price`, copies the new total into the event, and
writes order, stream entry and idempotency record in one `MULTI/EXEC`. -/
def handle_find_item_event (event : Event) (idemKey streamName : String)
    (db : OrderDb) : OrderDb :=
  if event.etype = EVENT_ITEM_NOT_FOUND then
    { db with idem := kvSet db.idem idemKey ⟨event, some 3600⟩,
              streams := streamAdd db.streams streamName event }
  else
    match kvGet db.orders event.orderId with
    | none => db
    | some entry =>
      let entry' := { entry with
        items := update_items entry.items event.itemId event.quantity,
        totalCost := entry.totalCost + event.quantity * event.price }
      let event' := { event with totalCost := entry'.totalCost }
      { orders := kvSet db.orders event.orderId entry',
        idem := kvSet db.idem idemKey ⟨event', some 3600⟩,
        streams := streamAdd db.streams streamName event' }

/-- `handle_checkout_event` (fault-free store): `CheckoutFailed` records the
idempotency key and appends to the stream; `CheckoutSuccess` loads the order
(a missing order returns without writing), sets `paid = true`, and writes
order, stream entry and idempotency record in one `MULTI/EXEC`. -/
def handle_checkout_event (event : Event) (idemKey streamName : String)
    (db : OrderDb) : OrderDb :=
  if event.etype = EVENT_CHECKOUT_FAILED then
    { db with idem := kvSet db.idem idemKey ⟨event, some 3600⟩,
              streams := streamAdd db.streams streamName event }
  else
    match kvGet db.orders event.orderId with
    | none => db
    | some entry =>
      let entry' := { entry with paid := true }
      { orders := kvSet db.orders event.orderId entry',
        idem := kvSet db.idem idemKey ⟨event, some 3600⟩,
        streams := streamAdd db.streams streamName event }

/-- `handle_response_event(event)` of `order/app.py`: any type outside
`ItemFound / ItemNotFound / CheckoutSuccess / CheckoutFailed` returns at
once; a present idempotency key skips everything; otherwise the event
dispatches to the find-item or checkout branch.  (In the source a branch
that exhausts its store retries makes the handler raise
`OrderPersistenceError`; the fault-free embedding never takes it, so
`raised` is always `false` here.) -/
def handle_response_event (event : Event) (db : OrderDb) : OrderResult :=
  if event.etype = EVENT_ITEM_FOUND ∨ event.etype = EVENT_ITEM_NOT_FOUND ∨
      event.etype = EVENT_CHECKOUT_SUCCESS ∨ event.etype = EVENT_CHECKOUT_FAILED then
    let streamName := "order_response:" ++ event.correlationId
    let idemKey := event.etype ++ ":" ++ event.correlationId
    match kvGet db.idem idemKey with
    | some _ => { db := db, raised := false }
    | none =>
      if event.etype = EVENT_ITEM_FOUND ∨ event.etype = EVENT_ITEM_NOT_FOUND then
        { db := handle_find_item_event event idemKey streamName db, raised := false }
      else
        { db := handle_checkout_event event idemKey streamName db, raised := false }
  else
    { db := db, raised := false }

/-- The response mapping of the blocked `checkout` HTTP handler: no stream
entry within the timeout is a 408; a `CheckoutFailed` response is a 400;
anything else read from the stream is a 200. -/
def checkoutHttpStatus (response : Option Event) : Nat :=
  match response with
  | none => 408
  | some e => if e.etype = EVENT_CHECKOUT_FAILED then 400 else 200

/-- What the blocked `checkout` handler reads for a correlation id: the
first entry of `order_response:<correlation_id>`, if any arrived before the
timeout. -/
def readResponseStream (db : OrderDb) (correlationId : String) : Option Event :=
  match kvGet db.streams ("order_response:" ++ correlationId) with
  | none => none
  | some entries => entries.head?

/-! ## Saga engine (`common/saga/saga.py`)

The transactions and compensations a `Saga` is built from are callables that
emit a command on the bus; the engine identifies them by position.  Invoking
one is recorded as an abstract `SagaAction`.  The interpretation of an
invocation depends on what the callables are:

* in `orchestrator/app.py` every callable is a plain synchronous `def`
  returning `None`, so `LocalTransaction.execute` / `BackwardRecovery.compensate`
  first run the callable (its side effect — scheduling the publish — happens)
  and then `await` its `None` result, which raises
  `TypeError: object NoneType cannot be used in an await expression`;
* for genuinely awaitable callables the `await` returns normally.

`event_handling` below therefore takes a flag `aw`: `true` models awaitable
callables, `false` the orchestrator's synchronous ones. -/

/-- The `event_mapping` dict a saga is built with (`CorrectEvents`,
`ErrorEvents`, `CommitEvent`, `AbortEvent`). -/
structure EventMapping where
  correctEvents : List String
  errorEvents : List String
  commitEvent : String
  abortEvent : String
deriving DecidableEq, Repr

/-- `CHECKOUT_EVENT_MAPPING` of `orchestrator/app.py`.  Note the commit
event type is the literal `CheckoutCompleted`, not the
`EVENT_CHECKOUT_SUCCESS = CheckoutSuccess` that `events_config.py` declares
for the Orchestrator → Order direction. -/
def CHECKOUT_EVENT_MAPPING : EventMapping :=
  { correctEvents := [EVENT_STOCK_SUBTRACTED, EVENT_PAYMENT_SUCCESS],
    errorEvents := [EVENT_STOCK_ERROR, EVENT_PAYMENT_ERROR],
    commitEvent := "CheckoutCompleted",
    abortEvent := EVENT_CHECKOUT_FAILED }

/-- A `Saga` instance: the event mapping, the number of transactions (the
compensation list has the same length in the orchestrator's use) and the
`current_transaction_index`, which `mark_transaction_complete` increments. -/
structure Saga where
  correlationId : String
  mapping : EventMapping
  numTransactions : Nat
  currentTransactionIndex : Nat
deriving DecidableEq, Repr

/-- A record of `SagaManager.ongoing_sagas`: the saga instance plus the
correlation ids of its `LocalTransaction` and `BackwardRecovery` wrappers
(each wrapper stores the saga's own correlation id). -/
structure SagaRecord where
  saga : Saga
  transactionIds : List String
  compensationIds : List String
deriving DecidableEq, Repr

/-- The `SagaManager`'s in-memory state. -/
structure SagaManagerState where
  ongoingSagas : List (String × SagaRecord)
deriving DecidableEq, Repr

/-- What `event_handling` did: which callables it invoked (by index) and
which terminal emissions ran, in execution order. -/
inductive SagaAction where
  | runTransaction (idx : Nat)
  | runCompensation (idx : Nat)
  | commitEmit (event : Event)
  | abortEmit (event : Event)
deriving DecidableEq, Repr

/-- How a call to `event_handling` ended: returned normally, or let one of
these exceptions escape. -/
inductive HandleOutcome where
  | normal
  | runtimeWarning
  | sagaError
  | typeError
  | indexError
deriving DecidableEq, Repr

/-- The result of one `event_handling` call. -/
structure HandleResult where
  state : SagaManagerState
  actions : List SagaAction
  outcome : HandleOutcome
deriving DecidableEq, Repr

/-- The index sequence of `Saga.compensate`:
`range(current_transaction_index - 1, -1, -1)`, that is
`[k-1, k-2, ..., 0]` for `k = current_transaction_index`. -/
def rangeDown : Nat → List Nat
  | 0 => []
  | n + 1 => n :: rangeDown n

/-- The search loop of `get_saga_id_from_event` over the `ongoing_sagas`
entries. -/
def findSagaId (correlationId : String) :
    List (String × SagaRecord) → Option String
  | [] => none
  | (sagaId, record) :: rest =>
    if correlationId ∈ record.transactionIds ∨
        correlationId ∈ record.compensationIds then
      some sagaId
    else
      findSagaId correlationId rest

/-- `SagaManager.get_saga_id_from_event(correlation_id)`: the first ongoing
saga whose transaction or compensation correlation-id lists contain the
event's correlation id. -/
def get_saga_id_from_event (st : SagaManagerState) (correlationId : String) :
    Option String :=
  findSagaId correlationId st.ongoingSagas

/-- `SagaManager.build_distributed_transaction(saga_id, event_mapping,
transactions, compensations, ...)`: allocate the saga at index 0 and
register it under its correlation id. -/
def build_distributed_transaction (st : SagaManagerState) (sagaId : String)
    (mapping : EventMapping) (numTransactions numCompensations : Nat) :
    SagaManagerState :=
  ⟨kvSet st.ongoingSagas sagaId
    { saga := { correlationId := sagaId, mapping := mapping,
                numTransactions := numTransactions,
                currentTransactionIndex := 0 },
      transactionIds := List.replicate numTransactions sagaId,
      compensationIds := List.replicate numCompensations sagaId }⟩

/-- The event emitted by `Saga.commit` / `Saga.abort` before the terminal
callable runs: the triggering event with `correlation_id` and `type`
overwritten (`event.update`). -/
def terminalEvent (saga : Saga) (eventType : String) (event : Event) : Event :=
  { event with correlationId := saga.correlationId, etype := eventType }

/-- The inner `aborting` closure of `SagaManager.event_handling`:
`compensate` sweeps the indices `[k-1, ..., 0]`, then
`abort_distributed_transaction` emits the abort event and deletes the saga,
then `SagaError` is raised.  With synchronous callables (`aw = false`) the
first awaited call raises `TypeError` instead: when compensations are
pending only the first one runs and nothing else happens; when none are
pending the abort event is still emitted (the side effect precedes the
failing `await`) but the saga is never deleted. -/
def aborting (aw : Bool) (st : SagaManagerState) (sagaId : String)
    (saga : Saga) (event : Event) : HandleResult :=
  if aw then
    { state := ⟨kvRemove st.ongoingSagas sagaId⟩,
      actions := (rangeDown saga.currentTransactionIndex).map .runCompensation
        ++ [.abortEmit (terminalEvent saga saga.mapping.abortEvent event)],
      outcome := .sagaError }
  else
    match rangeDown saga.currentTransactionIndex with
    | [] =>
      { state := st,
        actions := [.abortEmit (terminalEvent saga saga.mapping.abortEvent event)],
        outcome := .typeError }
    | i :: _ =>
      { state := st, actions := [.runCompensation i], outcome := .typeError }

/-- `SagaManager.event_handling(event)`.  Control flow of the source:

1. an event whose correlation id matches no ongoing saga raises
   `RuntimeWarning` (the `return` after the `raise` is dead code);
2. an event type in `ErrorEvents` but not `CorrectEvents` aborts;
3. a type in neither list raises `RuntimeWarning`;
4. a type in `CorrectEvents` is compared against
   `CorrectEvents[current_transaction_index]` (out of range raises
   `IndexError`): if expected, the index is incremented and either the next
   transaction is launched or, when finished, the commit event is emitted
   and the saga deleted; any exception in that block aborts from the
   already-incremented index.  With synchronous callables (`aw = false`)
   launching the next transaction emits its command and then raises, so the
   abort path runs right after it; the commit path emits the commit event,
   raises before the delete, and likewise falls into the abort path;
5. a type in `CorrectEvents` that is not the expected one aborts. -/
def event_handling (aw : Bool) (st : SagaManagerState) (event : Event) :
    HandleResult :=
  match get_saga_id_from_event st event.correlationId with
  | none => { state := st, actions := [], outcome := .runtimeWarning }
  | some sagaId =>
    match kvGet st.ongoingSagas sagaId with
    | none => { state := st, actions := [], outcome := .runtimeWarning }
    | some record =>
      let saga := record.saga
      if event.etype ∈ saga.mapping.correctEvents then
        match saga.mapping.correctEvents.get? saga.currentTransactionIndex with
        | none => { state := st, actions := [], outcome := .indexError }
        | some expected =>
          if expected = event.etype then
            let saga' := { saga with
              currentTransactionIndex := saga.currentTransactionIndex + 1 }
            let st' : SagaManagerState :=
              ⟨kvSet st.ongoingSagas sagaId { record with saga := saga' }⟩
            if saga'.currentTransactionIndex = saga.numTransactions then
              let commitEv := terminalEvent saga saga.mapping.commitEvent event
              if aw then
                { state := ⟨kvRemove st'.ongoingSagas sagaId⟩,
                  actions := [.commitEmit commitEv], outcome := .normal }
              else
                let ab := aborting aw st' sagaId saga' event
                ⟨ab.state, .commitEmit commitEv :: ab.actions, ab.outcome⟩
            else if saga'.currentTransactionIndex < saga.numTransactions then
              if aw then
                { state := st',
                  actions := [.runTransaction saga'.currentTransactionIndex],
                  outcome := .normal }
              else
                let ab := aborting aw st' sagaId saga' event
                ⟨ab.state, .runTransaction saga'.currentTransactionIndex ::
                  ab.actions, ab.outcome⟩
            else
              { state := st', actions := [], outcome := .normal }
          else
            aborting aw st sagaId saga event
      else
        if event.etype ∈ saga.mapping.errorEvents then
          aborting aw st sagaId saga event
        else
          { state := st, actions := [], outcome := .runtimeWarning }

/-! ## Orchestrator emitters (`orchestrator/app.py`)

Each saga callable builds a fresh event dict from the incoming one and
publishes it via `KafkaProducerSingleton.send_event(topic, event_key,
event)` — with a fixed string as `event_key`, not the correlation id. -/

/-- `subtract_item_transaction(event)`. -/
def subtract_item_transaction (event : Event) : Published :=
  ⟨"stock-operations", "subtract-stock",
   { etype := "SubtractStock", orderId := event.orderId,
     items := event.items, correlationId := event.correlationId }⟩

/-- `process_payment_transaction(event)` (note the lowercase type). -/
def process_payment_transaction (event : Event) : Published :=
  ⟨"payment-operations", "process-payment",
   { etype := "pay", orderId := event.orderId, userId := event.userId,
     amount := event.amount, correlationId := event.correlationId }⟩

/-- `compensate_stock(event)`. -/
def compensate_stock (event : Event) : Published :=
  ⟨"stock-operations", "compensate-stock",
   { etype := "AddStock", orderId := event.orderId,
     items := event.items, correlationId := event.correlationId }⟩

/-- `compensate_payment(event)` (note the lowercase type). -/
def compensate_payment (event : Event) : Published :=
  ⟨"payment-operations", "compensate-payment",
   { etype := "refund", orderId := event.orderId, userId := event.userId,
     amount := event.amount, correlationId := event.correlationId }⟩

/-- `commit_checkout(event)`: the terminal commit publication. -/
def commit_checkout (event : Event) : Published :=
  ⟨"order-operations", "checkout-response", event⟩

/-- `abort_checkout(event)`: the terminal abort publication. -/
def abort_checkout (event : Event) : Published :=
  ⟨"order-operations", "checkout-response", event⟩

/-! ## Derived predicates and concrete scenarios -/

/-- Whether one `(item_id, amount)` pair of a `SubtractStock` command fails
its business predicate against the store: the item is missing or the
decrement would push its stock below zero. -/
def subtractFails (db : StockDb) (p : String × Int) : Bool :=
  match kvGet db.items p.1 with
  | none => true
  | some entry => entry.val.stock - p.2 < 0

/-- The checkout payload used by the concrete scenarios: order `o1` of user
`u1`, two units of item `i1`, total 10. -/
def evStockSub1 : Event :=
  { etype := EVENT_STOCK_SUBTRACTED, correlationId := "corr-1",
    orderId := "o1", userId := "u1", amount := 10, items := [("i1", 2)] }

/-- The `PaymentProcessed` response closing the second forward step of the
scenario saga. -/
def evPayOk1 : Event :=
  { etype := EVENT_PAYMENT_SUCCESS, correlationId := "corr-1",
    orderId := "o1", userId := "u1", amount := 10, items := [("i1", 2)],
    credit := some 90 }

/-- The `PaymentError` response aborting the scenario saga after its first
completed step. -/
def evPayErr1 : Event :=
  { etype := EVENT_PAYMENT_ERROR, correlationId := "corr-1",
    orderId := "o1", userId := "u1", amount := 10, items := [("i1", 2)],
    error := some "INSUFFICIENT FUNDS" }

/-- The manager state right after `handle_response` builds the checkout saga
for correlation id `corr-1`. -/
def stManager0 : SagaManagerState :=
  build_distributed_transaction ⟨[]⟩ "corr-1" CHECKOUT_EVENT_MAPPING 2 2

/-- The manager state after the scenario saga consumed `StockSubtracted`
(run with the orchestrator's synchronous callables): the saga sits at
`current_transaction_index = 1` and is still registered. -/
def stManager1 : SagaManagerState :=
  (event_handling false stManager0 evStockSub1).state

/-- An order database holding the unpaid scenario order `o1`. -/
def orderDb1 : OrderDb :=
  ⟨[("o1", ⟨false, [("i1", 2)], "u1", 10⟩)], [], []⟩

/-- A stock database holding item `i1` with stock 10 at price 5. -/
def stockDb1 : StockDb := ⟨[("i1", ⟨⟨10, 5⟩, none⟩)], []⟩

/-- A `SubtractStock` command for two units of `i1`. -/
def evSub1 : Event :=
  { etype := EVENT_SUBTRACT_STOCK, correlationId := "corr-2",
    orderId := "o1", items := [("i1", 2)] }

/-- An `AddStock` compensation for two units of `i1`. -/
def evAdd1 : Event :=
  { etype := EVENT_ADD_STOCK, correlationId := "corr-3",
    orderId := "o1", items := [("i1", 2)] }

/-- A payment database holding user `u1` with credit 100. -/
def payDb1 : PaymentDb := ⟨[("u1", 100)], []⟩

/-- A `Pay` command of amount 10 for `u1`. -/
def evPay1 : Event :=
  { etype := EVENT_PAY, correlationId := "corr-4",
    orderId := "o1", userId := "u1", amount := 10 }

/-- A `Refund` command of amount 10 for `u1`. -/
def evRefund1 : Event :=
  { etype := EVENT_REFUND, correlationId := "corr-5",
    orderId := "o1", userId := "u1", amount := 10 }

/-- An event whose correlation id matches no ongoing saga. -/
def evForeign : Event :=
  { etype := EVENT_STOCK_SUBTRACTED, correlationId := "corr-unknown" }

/-! ## Store lemmas -/

theorem kvGet_kvSet_self {α : Type} (m : List (String × α)) (k : String)
    (v : α) : kvGet (kvSet m k v) k = some v := by
  induction m with
  | nil => simp [kvGet, kvSet]
  | cons hd tl ih =>
    obtain ⟨k', v'⟩ := hd
    by_cases h : k' = k
    · simp [kvGet, kvSet, h]
    · simp [kvGet, kvSet, h, ih]

theorem kvGet_kvSet_ne {α : Type} (m : List (String × α)) (k k' : String)
    (v : α) (h : k' ≠ k) : kvGet (kvSet m k v) k' = kvGet m k' := by
  induction m with
  | nil => simp [kvGet, kvSet, Ne.symm h]
  | cons hd tl ih =>
    obtain ⟨k₀, v₀⟩ := hd
    by_cases hk : k₀ = k
    · subst hk
      simp [kvGet, kvSet, Ne.symm h, h]
    · simp [kvGet, kvSet, hk, ih]

theorem kvGet_eq_none_iff {α : Type} (m : List (String × α)) (k : String) :
    kvGet m k = none ↔ k ∉ m.map Prod.fst := by
  induction m with
  | nil => simp [kvGet]
  | cons hd tl ih =>
    obtain ⟨k₀, v₀⟩ := hd
    by_cases h : k₀ = k
    · simp [kvGet, h]
    · simp [kvGet, h, ih, Ne.symm h]

theorem kvSet_mem_keys {α : Type} (m : List (String × α)) (k k' : String)
    (v : α) : k' ∈ (kvSet m k v).map Prod.fst ↔ k' ∈ m.map Prod.fst ∨ k' = k := by
  induction m with
  | nil => simp [kvSet]
  | cons hd tl ih =>
    obtain ⟨k₀, v₀⟩ := hd
    by_cases h : k₀ = k
    · subst h
      simp [kvSet]
      tauto
    · simp [kvSet, h, ih]
      tauto

theorem kvSet_keys_nodup {α : Type} (m : List (String × α)) (k : String)
    (v : α) (h : (m.map Prod.fst).Nodup) :
    ((kvSet m k v).map Prod.fst).Nodup := by
  induction m with
  | nil => simp [kvSet]
  | cons hd tl ih =>
    obtain ⟨k₀, v₀⟩ := hd
    simp only [List.map_cons, List.nodup_cons] at h
    by_cases hk : k₀ = k
    · subst hk
      simp only [kvSet, if_true, eq_self_iff_true, List.map_cons,
        List.nodup_cons]
      exact h
    · simp only [kvSet, if_neg hk, List.map_cons, List.nodup_cons]
      refine ⟨?_, ih h.2⟩
      intro hmem
      rw [kvSet_mem_keys] at hmem
      rcases hmem with hmem | hmem
      · exact h.1 hmem
      · exact hk hmem

theorem kvGet_kvRemove_ne {α : Type} (m : List (String × α)) (k k' : String)
    (h : k' ≠ k) : kvGet (kvRemove m k) k' = kvGet m k' := by
  induction m with
  | nil => simp [kvRemove]
  | cons hd tl ih =>
    obtain ⟨k₀, v₀⟩ := hd
    by_cases hk : k₀ = k
    · subst hk
      simp [kvRemove, kvGet, Ne.symm h]
    · simp [kvRemove, kvGet, hk, ih]

theorem kvGet_kvRemove_self {α : Type} (m : List (String × α)) (k : String)
    (h : (m.map Prod.fst).Nodup) : kvGet (kvRemove m k) k = none := by
  induction m with
  | nil => simp [kvRemove, kvGet]
  | cons hd tl ih =>
    obtain ⟨k₀, v₀⟩ := hd
    simp only [List.map_cons, List.nodup_cons] at h
    by_cases hk : k₀ = k
    · subst hk
      rw [kvGet_eq_none_iff]
      simpa [kvRemove] using h.1
    · simp [kvRemove, kvGet, hk, ih h.2]

/-! ## Lemmas about the write fold of the stock `MULTI/EXEC` blocks -/

theorem kvGet_foldl_kvSet_not_mem {α β : Type} (wrap : β → α)
    (ws : List (String × β)) (base : List (String × α)) (k : String)
    (h : k ∉ ws.map Prod.fst) :
    kvGet (ws.foldl (fun m p => kvSet m p.1 (wrap p.2)) base) k = kvGet base k := by
  induction ws generalizing base with
  | nil => rfl
  | cons hd tl ih =>
    obtain ⟨k₀, v₀⟩ := hd
    simp only [List.map_cons, List.mem_cons, not_or] at h
    simp only [List.foldl_cons]
    rw [ih _ h.2, kvGet_kvSet_ne _ _ _ _ h.1]

theorem kvGet_foldl_kvSet_mem_nodup {α β : Type} (wrap : β → α)
    (ws : List (String × β)) (base : List (String × α)) (k : String) (v : β)
    (hnd : (ws.map Prod.fst).Nodup) (hv : kvGet ws k = some v) :
    kvGet (ws.foldl (fun m p => kvSet m p.1 (wrap p.2)) base) k = some (wrap v) := by
  induction ws generalizing base with
  | nil => simp [kvGet] at hv
  | cons hd tl ih =>
    obtain ⟨k₀, v₀⟩ := hd
    simp only [List.map_cons, List.nodup_cons] at hnd
    simp only [List.foldl_cons]
    by_cases hk : k₀ = k
    · subst hk
      simp only [kvGet, eq_self_iff_true, if_true, Option.some.injEq] at hv
      subst hv
      rw [kvGet_foldl_kvSet_not_mem _ _ _ _ hnd.1, kvGet_kvSet_self]
    · simp only [kvGet, if_neg hk] at hv
      exact ih _ hnd.2 hv

theorem kvGet_foldl_kvSet_cases {α β : Type} (wrap : β → α)
    (ws : List (String × β)) (base : List (String × α)) (k : String) :
    kvGet (ws.foldl (fun m p => kvSet m p.1 (wrap p.2)) base) k = kvGet base k ∨
      ∃ v, kvGet (ws.foldl (fun m p => kvSet m p.1 (wrap p.2)) base) k =
        some (wrap v) := by
  induction ws generalizing base with
  | nil => exact Or.inl rfl
  | cons hd tl ih =>
    obtain ⟨k₀, v₀⟩ := hd
    simp only [List.foldl_cons]
    rcases ih (kvSet base k₀ (wrap v₀)) with h | h
    · by_cases hk : k₀ = k
      · subst hk
        rw [h, kvGet_kvSet_self]
        exact Or.inr ⟨v₀, rfl⟩
      · rw [h, kvGet_kvSet_ne _ _ _ _ (Ne.symm hk)]
        exact Or.inl rfl
    · exact Or.inr h

/-! ## Lemmas about the read phase of `remove_stock_event` -/

theorem removeReadLoop_not_touched (db : StockDb) (e : Event) :
    ∀ (items : List (String × Int)) (acc res : List (String × StockValue))
      (key : String), key ∉ items.map Prod.fst →
      removeReadLoop db e items acc = .ok res →
      kvGet res key = kvGet acc key := by
  intro items
  induction items with
  | nil =>
    intro acc res key _ hok
    simp only [removeReadLoop, Except.ok.injEq] at hok
    rw [hok]
  | cons hd tl ih =>
    obtain ⟨id, amt⟩ := hd
    intro acc res key hkey hok
    simp only [List.map_cons, List.mem_cons, not_or] at hkey
    rcases hdb : kvGet db.items id with _ | entry
    · simp only [removeReadLoop, hdb] at hok
      exact absurd hok (by simp)
    · simp only [removeReadLoop, hdb] at hok
      by_cases hneg : entry.val.stock - amt < 0
      · rw [if_pos hneg] at hok
        exact absurd hok (by simp)
      · rw [if_neg hneg] at hok
        rw [ih _ _ _ hkey.2 hok, kvGet_kvSet_ne _ _ _ _ hkey.1]

theorem removeReadLoop_keys_nodup (db : StockDb) (e : Event) :
    ∀ (items : List (String × Int)) (acc res : List (String × StockValue)),
      (acc.map Prod.fst).Nodup →
      removeReadLoop db e items acc = .ok res →
      (res.map Prod.fst).Nodup := by
  intro items
  induction items with
  | nil =>
    intro acc res hacc hok
    simp only [removeReadLoop, Except.ok.injEq] at hok
    rw [← hok]
    exact hacc
  | cons hd tl ih =>
    obtain ⟨id, amt⟩ := hd
    intro acc res hacc hok
    rcases hdb : kvGet db.items id with _ | entry
    · simp only [removeReadLoop, hdb] at hok
      exact absurd hok (by simp)
    · simp only [removeReadLoop, hdb] at hok
      by_cases hneg : entry.val.stock - amt < 0
      · rw [if_pos hneg] at hok
        exact absurd hok (by simp)
      · rw [if_neg hneg] at hok
        exact ih _ _ (kvSet_keys_nodup _ _ _ hacc) hok

theorem removeReadLoop_error_spec (db : StockDb) (e : Event) :
    ∀ (items : List (String × Int)) (acc : List (String × StockValue)),
      items.any (subtractFails db) = true →
      ∃ msg, removeReadLoop db e items acc =
        .error { e with error := some msg, etype := EVENT_STOCK_ERROR } := by
  intro items
  induction items with
  | nil => intro acc h; simp at h
  | cons hd tl ih =>
    obtain ⟨id, amt⟩ := hd
    intro acc hany
    rcases hdb : kvGet db.items id with _ | entry
    · exact ⟨"ITEM " ++ id ++ " NOT FOUND", by simp [removeReadLoop, hdb]⟩
    · by_cases hneg : entry.val.stock - amt < 0
      · exact ⟨"ITEM " ++ id ++ " STOCK CANNOT GET REDUCED BELOW ZERO",
          by simp [removeReadLoop, hdb, hneg]⟩
      · have hfail : subtractFails db (id, amt) = false := by
          simp [subtractFails, hdb]
          omega
        simp only [List.any_cons, hfail, Bool.false_or] at hany
        obtain ⟨msg, hmsg⟩ := ih (kvSet acc id
          { stock := entry.val.stock - amt, price := entry.val.price }) hany
        exact ⟨msg, by simp [removeReadLoop, hdb, hneg, hmsg]⟩

theorem removeReadLoop_ok_spec (db : StockDb) (e : Event) :
    ∀ (items : List (String × Int)) (acc : List (String × StockValue)),
      items.any (subtractFails db) = false →
      ∃ res, removeReadLoop db e items acc = .ok res := by
  intro items
  induction items with
  | nil => intro acc _; exact ⟨acc, rfl⟩
  | cons hd tl ih =>
    obtain ⟨id, amt⟩ := hd
    intro acc hany
    simp only [List.any_cons, Bool.or_eq_false_iff] at hany
    rcases hdb : kvGet db.items id with _ | entry
    · simp [subtractFails, hdb] at hany
    · have hneg : ¬(entry.val.stock - amt < 0) := by
        have h1 := hany.1
        simp [subtractFails, hdb] at h1
        omega
      obtain ⟨res, hres⟩ := ih (kvSet acc id
        { stock := entry.val.stock - amt, price := entry.val.price }) hany.2
      exact ⟨res, by simp [removeReadLoop, hdb, hneg, hres]⟩

theorem removeReadLoop_get_of_mem (db : StockDb) (e : Event) :
    ∀ (items : List (String × Int)) (acc res : List (String × StockValue)),
      (items.map Prod.fst).Nodup →
      removeReadLoop db e items acc = .ok res →
      ∀ p ∈ items, ∃ en, kvGet db.items p.1 = some en ∧
        ¬(en.val.stock - p.2 < 0) ∧
        kvGet res p.1 = some ⟨en.val.stock - p.2, en.val.price⟩ := by
  intro items
  induction items with
  | nil => intro acc res _ _ p hp; simp at hp
  | cons hd tl ih =>
    obtain ⟨id, amt⟩ := hd
    intro acc res hnd hok p hp
    simp only [List.map_cons, List.nodup_cons] at hnd
    rcases hdb : kvGet db.items id with _ | entry
    · simp only [removeReadLoop, hdb] at hok
      exact absurd hok (by simp)
    · simp only [removeReadLoop, hdb] at hok
      by_cases hneg : entry.val.stock - amt < 0
      · rw [if_pos hneg] at hok
        exact absurd hok (by simp)
      · rw [if_neg hneg] at hok
        rcases List.mem_cons.mp hp with hp | hp
        · subst hp
          refine ⟨entry, hdb, hneg, ?_⟩
          rw [removeReadLoop_not_touched db e tl _ _ _ hnd.1 hok,
            kvGet_kvSet_self]
        · exact ih _ _ hnd.2 hok p hp

/-! ## Publish-key lemmas (for the keying policy) -/

theorem removeStockGo_keys (idemKey : String) :
    ∀ (schedule : List StoreFault) (e : Event) (db : StockDb) (attempt : Nat),
      ∀ p ∈ (removeStockGo idemKey e db attempt schedule).published,
        p.key = e.correlationId := by
  intro schedule
  induction schedule with
  | nil =>
    intro e db attempt p hp
    simp only [removeStockGo] at hp
    split at hp
    · split at hp <;> simp only [List.mem_singleton] at hp <;> rw [hp]
    · simp at hp
  | cons f rest ih =>
    intro e db attempt p hp
    by_cases hatt : attempt < 3
    · by_cases hw : f.isWatch
      · simp only [removeStockGo, if_pos hatt, if_pos hw] at hp
        exact ih e db attempt p hp
      · simp only [removeStockGo, if_pos hatt, if_neg hw, List.mem_cons] at hp
        rcases hp with hp | hp
        · rw [hp]
        · exact ih ({ e with error := some DB_ERROR_STR, etype := EVENT_STOCK_ERROR }) db attempt p hp
    · simp only [removeStockGo, if_neg hatt] at hp
      simp at hp

theorem addStockGo_keys (idemKey : String) :
    ∀ (schedule : List StoreFault) (e : Event) (db : StockDb) (attempt : Nat),
      ∀ p ∈ (addStockGo idemKey e db attempt schedule).published,
        p.key = e.correlationId := by
  intro schedule
  induction schedule with
  | nil =>
    intro e db attempt p hp
    simp only [addStockGo] at hp
    split at hp
    · split at hp
      · simp at hp
      · simp only [List.mem_singleton] at hp
        rw [hp]
    · simp at hp
  | cons f rest ih =>
    intro e db attempt p hp
    by_cases hatt : attempt < 3
    · by_cases hw : f.isWatch
      · simp only [addStockGo, if_pos hatt, if_pos hw] at hp
        exact ih e db attempt p hp
      · simp only [addStockGo, if_pos hatt, if_neg hw, List.mem_cons] at hp
        rcases hp with hp | hp
        · rw [hp]
        · exact ih ({ e with error := some DB_ERROR_STR, etype := EVENT_STOCK_COMPENSATION_FAILED }) db attempt p hp
    · simp only [addStockGo, if_neg hatt] at hp
      simp at hp

theorem handle_events_keys (e : Event) (db : StockDb)
    (schedule : List StoreFault) :
    ∀ p ∈ (handle_events e db schedule).published, p.key = e.correlationId := by
  intro p hp
  simp only [handle_events] at hp
  split at hp
  · simp only [find_item_event] at hp
    split at hp <;> simp only [List.mem_singleton] at hp <;> rw [hp]
  · split at hp
    · simp only [List.mem_singleton] at hp
      rw [hp]
    · split at hp
      · exact addStockGo_keys _ _ _ _ _ p hp
      · split at hp
        · exact removeStockGo_keys _ _ _ _ _ p hp
        · simp at hp

theorem payGo_keys (idemKey : String) :
    ∀ (schedule : List StoreFault) (e : Event) (db : PaymentDb) (attempt : Nat),
      ∀ p ∈ (payGo idemKey e db attempt schedule).published,
        p.key = e.correlationId := by
  intro schedule
  induction schedule with
  | nil =>
    intro e db attempt p hp
    simp only [payGo] at hp
    split at hp
    · split at hp
      · simp only [List.mem_singleton] at hp
        rw [hp]
      · split at hp <;> simp only [List.mem_singleton] at hp <;> rw [hp]
    · simp at hp
  | cons f rest ih =>
    intro e db attempt p hp
    simp only [payGo] at hp
    split at hp
    · split at hp
      · exact ih e db attempt p hp
      · split at hp
        · simp only [List.mem_singleton] at hp
          rw [hp]
        · exact ih e db _ p hp
    · simp at hp

theorem refundGo_keys (idemKey : String) :
    ∀ (schedule : List StoreFault) (e : Event) (db : PaymentDb) (attempt : Nat),
      ∀ p ∈ (refundGo idemKey e db attempt schedule).published,
        p.key = e.correlationId := by
  intro schedule
  induction schedule with
  | nil =>
    intro e db attempt p hp
    simp only [refundGo] at hp
    split at hp
    · split at hp <;> simp only [List.mem_singleton] at hp <;> rw [hp]
    · simp at hp
  | cons f rest ih =>
    intro e db attempt p hp
    simp only [refundGo] at hp
    split at hp
    · exact ih e db attempt p hp
    · simp at hp

/-! ## Claim theorems -/

/-- C1: the claim says the orchestrator's commit action emits a terminal
event of type `CheckoutSuccess` which the Order response consumer turns into
`paid = true` and an HTTP 200.  The code disagrees with itself: the commit
event type hard-coded in `CHECKOUT_EVENT_MAPPING` is `CheckoutCompleted`,
which the Order consumer's handled set does not contain, so on a fully
successful saga the consumer drops the terminal event — the order stays
unpaid, the response stream stays empty and the blocked checkout handler
times out with 408.  Had the commit type been the declared
`EVENT_CHECKOUT_SUCCESS`, the same payload would have flipped `paid` and
produced a 200. -/
theorem checkout_commit_event_type_bug :
    CHECKOUT_EVENT_MAPPING.commitEvent = "CheckoutCompleted" ∧
    CHECKOUT_EVENT_MAPPING.commitEvent ≠ EVENT_CHECKOUT_SUCCESS ∧
    (event_handling true (event_handling true stManager0 evStockSub1).state
        evPayOk1).actions =
      [.commitEmit { evPayOk1 with etype := "CheckoutCompleted" }] ∧
    (event_handling true (event_handling true stManager0 evStockSub1).state
        evPayOk1).outcome = .normal ∧
    handle_response_event { evPayOk1 with etype := "CheckoutCompleted" } orderDb1 =
      ⟨orderDb1, false⟩ ∧
    checkoutHttpStatus (readResponseStream orderDb1 "corr-1") = 408 ∧
    (kvGet (handle_response_event { evPayOk1 with etype := EVENT_CHECKOUT_SUCCESS }
        orderDb1).db.orders "o1").map OrderValue.paid = some true ∧
    checkoutHttpStatus (readResponseStream
      (handle_response_event { evPayOk1 with etype := EVENT_CHECKOUT_SUCCESS }
        orderDb1).db "corr-1") = 200 := by
  decide

/-- C7: the claim says the `AddStock` compensation handler emits
`StockCompensationFailed` when a listed item is missing and never crashes
without publishing an outcome.  In the code the missing-item branch sets the
failure fields but does not return, so `msgpack.decode(None)` raises an
uncaught `TypeError`: the handler crashes having published nothing (shown at
a concrete store without item `i1`; with the item present the handler does
publish `StockCompensated`). -/
theorem add_stock_missing_item_crash :
    add_stock_event evAdd1 "AddStock:corr-3" ⟨[], []⟩ [] =
      ⟨⟨[], []⟩, [], true⟩ ∧
    (add_stock_event evAdd1 "AddStock:corr-3" stockDb1 []).crashed = false ∧
    (add_stock_event evAdd1 "AddStock:corr-3" stockDb1 []).published =
      [⟨STOCK_RESPONSES_TOPIC, "corr-3",
        { evAdd1 with etype := EVENT_STOCK_COMPENSATED }⟩] := by
  decide

/-- C8 (as stated, refuted): the claim says an event whose correlation id
matches no ongoing saga is logged and dropped **without raising**.  On an
empty saga map, `event_handling` raises `RuntimeWarning` (the `return` after
the `raise` is dead code), so the outcome is not a normal return. -/
theorem unknown_saga_event_raises :
    (event_handling true ⟨[]⟩ evForeign).outcome = .runtimeWarning ∧
    (event_handling true ⟨[]⟩ evForeign).outcome ≠ .normal := by
  decide

/-- C8 (amended): an event whose correlation id matches no ongoing saga
makes `event_handling` raise a `RuntimeWarning` — instead of merely logging
one — but it is dropped otherwise: no saga state is mutated, the
ongoing-saga map is left unchanged and no callable or terminal action runs
(with either callable semantics). -/
theorem unknown_saga_event_dropped (aw : Bool) (st : SagaManagerState)
    (e : Event) (h : get_saga_id_from_event st e.correlationId = none) :
    event_handling aw st e = ⟨st, [], .runtimeWarning⟩ := by
  unfold event_handling
  rw [h]

/-- C8 witness: the amended statement at the empty manager and a concrete
foreign event. -/
theorem unknown_saga_event_dropped_witness :
    event_handling true ⟨[]⟩ evForeign = ⟨⟨[]⟩, [], .runtimeWarning⟩ :=
  unknown_saga_event_dropped true ⟨[]⟩ evForeign rfl

/-- C9 (as stated, refuted): the claim says every event the orchestrator
publishes inside a saga is keyed by the transaction's correlation id.  The
orchestrator's emitters pass fixed strings as the `event_key` argument of
`send_event`: the first forward command of the scenario saga goes out with
key `subtract-stock`, not `corr-1`. -/
theorem orchestrator_key_not_correlation_id :
    (subtract_item_transaction evStockSub1).key = "subtract-stock" ∧
    (subtract_item_transaction evStockSub1).key ≠
      (subtract_item_transaction evStockSub1).event.correlationId := by
  decide

/-- C9 (amended): the orchestrator publishes every saga event under a fixed
per-callable key (`subtract-stock`, `process-payment`, `compensate-stock`,
`compensate-payment`, `checkout-response`), never the correlation id, while
the stock and payment participants do key every outcome they publish by the
incoming event's correlation id (under any fault schedule). -/
theorem saga_publish_keys (e : Event) (sdb : StockDb) (pdb : PaymentDb)
    (idemKey : String) (schedule : List StoreFault) :
    (subtract_item_transaction e).key = "subtract-stock" ∧
    (process_payment_transaction e).key = "process-payment" ∧
    (compensate_stock e).key = "compensate-stock" ∧
    (compensate_payment e).key = "compensate-payment" ∧
    (commit_checkout e).key = "checkout-response" ∧
    (abort_checkout e).key = "checkout-response" ∧
    (∀ p ∈ (handle_events e sdb schedule).published, p.key = e.correlationId) ∧
    (∀ p ∈ (handle_pay_event e idemKey pdb schedule).published,
      p.key = e.correlationId) ∧
    (∀ p ∈ (handle_refund_event e idemKey pdb schedule).published,
      p.key = e.correlationId) :=
  ⟨rfl, rfl, rfl, rfl, rfl, rfl, handle_events_keys e sdb schedule,
   payGo_keys idemKey schedule e pdb 0, refundGo_keys idemKey schedule e pdb 0⟩

/-- C9 witness: the amended statement evaluated at the scenario event, the
scenario stores and a one-fault schedule. -/
theorem saga_publish_keys_witness :
    (∀ p ∈ (handle_events evSub1 stockDb1 [.connErr]).published,
      p.key = evSub1.correlationId) ∧
    (subtract_item_transaction evStockSub1).key = "subtract-stock" :=
  ⟨(saga_publish_keys evSub1 stockDb1 payDb1 "k" [.connErr]).2.2.2.2.2.2.1,
   (saga_publish_keys evStockSub1 stockDb1 payDb1 "k" []).1⟩

/-- Helper for C6: `handle_refund_event` never reacts to a fault schedule —
both `except` clauses just repeat the loop with `attempt` unchanged, so any
run under faults equals the fault-free run (transient errors are retried
without bound and without emitting anything). -/
theorem refundGo_ignores_faults (idemKey : String) (e : Event)
    (db : PaymentDb) :
    ∀ schedule : List StoreFault,
      refundGo idemKey e db 0 schedule = refundGo idemKey e db 0 [] := by
  intro schedule
  induction schedule with
  | nil => rfl
  | cons f rest ih =>
    show refundGo idemKey e db 0 (f :: rest) = _
    rw [← ih]
    norm_num [refundGo]

/-- C6 (as stated, refuted): the claim says transient store errors are
retried up to 5 attempts and only on exhaustion the handler emits a
`*_ERROR` outcome with the `DB error` marker, written under the idempotency
key.  In the stock subtract handler a single transient `ConnectionError` is
caught by the `except RedisError` clause, which publishes the `StockError`
`DB error` outcome immediately, without exhausting any retry budget; the
attempt then repeats, succeeds and stores the `StockSubtracted` outcome
(still carrying the stale `error` field) under the idempotency key — the
emitted `DB error` outcome is never written there. -/
theorem stock_db_error_not_retried :
    (remove_stock_event evSub1 "SubtractStock:corr-2" stockDb1
        [.connErr]).published =
      [⟨STOCK_RESPONSES_TOPIC, "corr-2",
        { evSub1 with error := some DB_ERROR_STR, etype := EVENT_STOCK_ERROR }⟩,
       ⟨STOCK_RESPONSES_TOPIC, "corr-2",
        { evSub1 with error := some DB_ERROR_STR,
                      etype := EVENT_STOCK_SUBTRACTED }⟩] ∧
    kvGet (remove_stock_event evSub1 "SubtractStock:corr-2" stockDb1
        [.connErr]).db.idem "SubtractStock:corr-2" =
      some ⟨{ evSub1 with error := some DB_ERROR_STR,
                          etype := EVENT_STOCK_SUBTRACTED }, some 3600⟩ := by
  decide

/-- C6 (amended): only the payment `Pay` handler implements the claimed
policy — five attempts with fixed backoff, then a `PaymentError` carrying
the `DB error` marker stored under the idempotency key.  The stock handlers
instead publish a `*_ERROR` `DB error` outcome on every faulty attempt
(their generic `RedisError` clause fires before the dead transient-error
clause) without writing it to the idempotency key, and the `Refund` handler
retries transient faults for ever, never emitting a `DB error` outcome. -/
theorem participant_db_error_retry (e : Event) (idemKey : String)
    (sdb : StockDb) (pdb : PaymentDb) (f : StoreFault)
    (schedule : List StoreFault) (hw : f.isWatch = false) :
    handle_pay_event e idemKey pdb (List.replicate 5 f) =
      ⟨{ pdb with idem := kvSet pdb.idem idemKey
                    ⟨{ e with error := some (DB_ERROR_STR ++ excStr f),
                              etype := EVENT_PAYMENT_ERROR }, some 3600⟩ },
       [⟨PAYMENT_RESPONSES_TOPIC, e.correlationId,
         { e with error := some (DB_ERROR_STR ++ excStr f),
                  etype := EVENT_PAYMENT_ERROR }⟩]⟩ ∧
    (remove_stock_event e idemKey sdb [f]).published.head? =
      some ⟨STOCK_RESPONSES_TOPIC, e.correlationId,
        { e with error := some DB_ERROR_STR, etype := EVENT_STOCK_ERROR }⟩ ∧
    handle_refund_event e idemKey pdb schedule =
      handle_refund_event e idemKey pdb [] := by
  refine ⟨?_, ?_, ?_⟩
  · simp [handle_pay_event, List.replicate, payGo, hw]
  · simp [remove_stock_event, removeStockGo, hw]
  · exact refundGo_ignores_faults idemKey e pdb schedule

/-- C6 witness: the amended statement applied at a concrete command, store
and a persistent `ConnectionError` schedule. -/
theorem participant_db_error_retry_witness :
    handle_refund_event evRefund1 "Refund:corr-5" payDb1
        [.connErr, .connErr, .connErr, .connErr, .connErr, .connErr] =
      handle_refund_event evRefund1 "Refund:corr-5" payDb1 [] :=
  (participant_db_error_retry evRefund1 "Refund:corr-5" stockDb1 payDb1
    .connErr [.connErr, .connErr, .connErr, .connErr, .connErr, .connErr]
    rfl).2.2

/-- C10: a successful `SubtractStock` writes every updated item with
`ex=3600` (the idempotency TTL), while the `AddStock` compensation writes
items with no expiry; both store their outcome under the idempotency key
with `ex=3600`.  Stated as: any item binding changed by the subtract handler
carries `ex = some 3600`, any binding changed by the add handler carries
`ex = none`, any idempotency binding either pre-existed or carries
`ex = some 3600`; plus the two concrete success scenarios. -/
theorem stock_ttl_asymmetry (e : Event) (idemKey : String) (db : StockDb)
    (id : String) (entry : StockEntry) :
    (kvGet (remove_stock_event e idemKey db []).db.items id = some entry →
      kvGet db.items id = some entry ∨ entry.ex = some 3600) ∧
    (kvGet (add_stock_event e idemKey db []).db.items id = some entry →
      kvGet db.items id = some entry ∨ entry.ex = none) ∧
    (∀ en, kvGet (remove_stock_event e idemKey db []).db.idem idemKey =
        some en → kvGet db.idem idemKey = some en ∨ en.ex = some 3600) ∧
    (∀ en, kvGet (add_stock_event e idemKey db []).db.idem idemKey =
        some en → kvGet db.idem idemKey = some en ∨ en.ex = some 3600) ∧
    kvGet (remove_stock_event evSub1 "SubtractStock:corr-2"
        stockDb1 []).db.items "i1" = some ⟨⟨8, 5⟩, some 3600⟩ ∧
    kvGet (add_stock_event evAdd1 "AddStock:corr-3"
        stockDb1 []).db.items "i1" = some ⟨⟨12, 5⟩, none⟩ := by
  refine ⟨?_, ?_, ?_, ?_, by decide, by decide⟩
  · intro h
    rcases hloop : removeReadLoop db e e.items [] with ev | res
    · simp only [remove_stock_event, removeStockGo, hloop] at h
      norm_num at h
      exact Or.inl h
    · simp only [remove_stock_event, removeStockGo, hloop] at h
      norm_num at h
      rcases kvGet_foldl_kvSet_cases (fun v => StockEntry.mk v (some 3600))
          res db.items id with hc | ⟨v, hc⟩
      · rw [hc] at h
        exact Or.inl h
      · rw [hc] at h
        injection h with h2
        exact Or.inr (by rw [← h2])
  · intro h
    rcases hloop : addReadLoop db e e.items [] with ev | res
    · simp only [add_stock_event, addStockGo, hloop] at h
      norm_num at h
      exact Or.inl h
    · simp only [add_stock_event, addStockGo, hloop] at h
      norm_num at h
      rcases kvGet_foldl_kvSet_cases (fun v => StockEntry.mk v none)
          res db.items id with hc | ⟨v, hc⟩
      · rw [hc] at h
        exact Or.inl h
      · rw [hc] at h
        injection h with h2
        exact Or.inr (by rw [← h2])
  · intro en h
    rcases hloop : removeReadLoop db e e.items [] with ev | res
    · simp only [remove_stock_event, removeStockGo, hloop] at h
      norm_num at h
      exact Or.inl h
    · simp only [remove_stock_event, removeStockGo, hloop] at h
      norm_num at h
      rw [kvGet_kvSet_self] at h
      injection h with h2
      exact Or.inr (by rw [← h2])
  · intro en h
    rcases hloop : addReadLoop db e e.items [] with ev | res
    · simp only [add_stock_event, addStockGo, hloop] at h
      norm_num at h
      exact Or.inl h
    · simp only [add_stock_event, addStockGo, hloop] at h
      norm_num at h
      rw [kvGet_kvSet_self] at h
      injection h with h2
      exact Or.inr (by rw [← h2])

/-- C5: the `Pay` handler decrements credit only when the user exists and
`credit - amount` stays non-negative, emitting `PaymentProcessed` with the
new credit; a missing user or an insufficient balance leaves the stored
credit untouched and emits `PaymentError` (`USER NOT FOUND` /
`INSUFFICIENT FUNDS`); stored credits never go negative.  The
`PaymentLogic.remove_credit` draft obeys the same discipline: any error
leaves the store unchanged, and non-negativity is preserved. -/
theorem pay_predicate_and_nonneg (e : Event) (idemKey : String)
    (db : PaymentDb) :
    (kvGet db.users e.userId = none →
      (handle_pay_event e idemKey db []).db.users = db.users ∧
      (handle_pay_event e idemKey db []).published =
        [⟨PAYMENT_RESPONSES_TOPIC, e.correlationId,
          { e with error := some "USER NOT FOUND",
                   etype := EVENT_PAYMENT_ERROR }⟩]) ∧
    (∀ c, kvGet db.users e.userId = some c → c - e.amount < 0 →
      (handle_pay_event e idemKey db []).db.users = db.users ∧
      (handle_pay_event e idemKey db []).published =
        [⟨PAYMENT_RESPONSES_TOPIC, e.correlationId,
          { e with error := some "INSUFFICIENT FUNDS",
                   etype := EVENT_PAYMENT_ERROR }⟩]) ∧
    (∀ c, kvGet db.users e.userId = some c → ¬(c - e.amount < 0) →
      (handle_pay_event e idemKey db []).db.users =
        kvSet db.users e.userId (c - e.amount) ∧
      (handle_pay_event e idemKey db []).published =
        [⟨PAYMENT_RESPONSES_TOPIC, e.correlationId,
          { e with credit := some (c - e.amount),
                   etype := EVENT_PAYMENT_SUCCESS }⟩]) ∧
    ((∀ u c, kvGet db.users u = some c → 0 ≤ c) →
      ∀ u c, kvGet (handle_pay_event e idemKey db []).db.users u = some c →
        0 ≤ c) ∧
    (∀ (users : List (String × Int)) (uid : String) (amt : Int),
      (remove_credit users uid amt).2.2 ≠ none →
      (remove_credit users uid amt).1 = users) ∧
    (∀ (users : List (String × Int)) (uid : String) (amt : Int),
      (∀ u c, kvGet users u = some c → 0 ≤ c) →
      ∀ u c, kvGet (remove_credit users uid amt).1 u = some c → 0 ≤ c) := by
  refine ⟨?_, ?_, ?_, ?_, ?_, ?_⟩
  · intro hu
    constructor <;> simp [handle_pay_event, payGo, hu]
  · intro c hc hneg
    constructor <;> simp [handle_pay_event, payGo, hc, hneg]
  · intro c hc hneg
    constructor <;> simp [handle_pay_event, payGo, hc, hneg]
  · intro hnn u c hc
    rcases hu : kvGet db.users e.userId with _ | c0
    · simp [handle_pay_event, payGo, hu] at hc
      exact hnn u c hc
    · by_cases hneg : c0 - e.amount < 0
      · simp [handle_pay_event, payGo, hu, hneg] at hc
        exact hnn u c hc
      · simp [handle_pay_event, payGo, hu, hneg] at hc
        by_cases huid : u = e.userId
        · subst huid
          rw [kvGet_kvSet_self] at hc
          injection hc with hc2
          omega
        · rw [kvGet_kvSet_ne _ _ _ _ huid] at hc
          exact hnn u c hc
  · intro users uid amt hne
    rcases hu : kvGet users uid with _ | c
    · simp [remove_credit, hu]
    · by_cases hneg : c - amt < 0
      · simp [remove_credit, hu, hneg]
      · exfalso
        apply hne
        simp [remove_credit, hu, hneg]
  · intro users uid amt hnn u c hc
    rcases hu : kvGet users uid with _ | c0
    · simp only [remove_credit, hu] at hc
      exact hnn u c hc
    · by_cases hneg : c0 - amt < 0
      · simp only [remove_credit, hu, if_pos hneg] at hc
        exact hnn u c hc
      · simp only [remove_credit, hu, if_neg hneg] at hc
        by_cases huid : u = uid
        · subst huid
          rw [kvGet_kvSet_self] at hc
          injection hc with hc2
          omega
        · rw [kvGet_kvSet_ne _ _ _ _ huid] at hc
          exact hnn u c hc

/-- C5 witness: the successful-payment clause at user `u1` with credit 100
paying 10. -/
theorem pay_predicate_and_nonneg_witness :
    (handle_pay_event evPay1 "Pay:corr-4" payDb1 []).db.users =
      kvSet payDb1.users "u1" 90 :=
  ((pay_predicate_and_nonneg evPay1 "Pay:corr-4" payDb1).2.2.1 100
    (by decide) (by decide)).1

/-- Helper for C2: `find_item_event` never changes the store. -/
theorem find_item_event_db (e : Event) (db : StockDb) :
    (find_item_event e db).db = db := by
  unfold find_item_event
  split <;> rfl

/-! Characterization lemmas: one per control-flow branch of the handlers,
used to assemble the idempotence and all-or-nothing theorems. -/

theorem handle_events_find (e : Event) (db : StockDb)
    (schedule : List StoreFault) (hf : e.etype = EVENT_FIND_ITEM) :
    handle_events e db schedule = find_item_event e db := by
  simp only [handle_events, if_pos hf]

theorem handle_events_replay (e : Event) (db : StockDb)
    (schedule : List StoreFault) (stored : IdemEntry)
    (hf : ¬e.etype = EVENT_FIND_ITEM)
    (hidem : kvGet db.idem (e.etype ++ ":" ++ e.correlationId) = some stored) :
    handle_events e db schedule =
      ⟨db, [⟨STOCK_RESPONSES_TOPIC, e.correlationId, stored.event⟩], false⟩ := by
  simp only [handle_events, if_neg hf, hidem]

theorem handle_events_add (e : Event) (db : StockDb)
    (schedule : List StoreFault) (hf : ¬e.etype = EVENT_FIND_ITEM)
    (ha : e.etype = EVENT_ADD_STOCK)
    (hidem : kvGet db.idem (e.etype ++ ":" ++ e.correlationId) = none) :
    handle_events e db schedule =
      add_stock_event e (e.etype ++ ":" ++ e.correlationId) db schedule := by
  simp only [handle_events, if_neg hf, hidem, if_pos ha]

theorem handle_events_sub (e : Event) (db : StockDb)
    (schedule : List StoreFault) (hf : ¬e.etype = EVENT_FIND_ITEM)
    (ha : ¬e.etype = EVENT_ADD_STOCK) (hs : e.etype = EVENT_SUBTRACT_STOCK)
    (hidem : kvGet db.idem (e.etype ++ ":" ++ e.correlationId) = none) :
    handle_events e db schedule =
      remove_stock_event e (e.etype ++ ":" ++ e.correlationId) db schedule := by
  simp only [handle_events, if_neg hf, hidem, if_neg ha, if_pos hs]

theorem handle_events_other (e : Event) (db : StockDb)
    (schedule : List StoreFault) (hf : ¬e.etype = EVENT_FIND_ITEM)
    (ha : ¬e.etype = EVENT_ADD_STOCK) (hs : ¬e.etype = EVENT_SUBTRACT_STOCK)
    (hidem : kvGet db.idem (e.etype ++ ":" ++ e.correlationId) = none) :
    handle_events e db schedule = ⟨db, [], false⟩ := by
  simp only [handle_events, if_neg hf, hidem, if_neg ha, if_neg hs]

theorem add_stock_event_crash (e : Event) (idemKey : String) (db : StockDb)
    (hloop : addReadLoop db e e.items [] = .error ()) :
    add_stock_event e idemKey db [] = ⟨db, [], true⟩ := by
  norm_num [add_stock_event, addStockGo, hloop]

theorem add_stock_event_ok (e : Event) (idemKey : String) (db : StockDb)
    (res : List (String × StockValue))
    (hloop : addReadLoop db e e.items [] = .ok res) :
    add_stock_event e idemKey db [] =
      ⟨⟨res.foldl (fun m p => kvSet m p.1 ⟨p.2, none⟩) db.items,
        kvSet db.idem idemKey
          ⟨{ e with etype := EVENT_STOCK_COMPENSATED }, some 3600⟩⟩,
       [⟨STOCK_RESPONSES_TOPIC, e.correlationId,
         { e with etype := EVENT_STOCK_COMPENSATED }⟩], false⟩ := by
  norm_num [add_stock_event, addStockGo, hloop]

theorem remove_stock_event_err (e : Event) (idemKey : String) (db : StockDb)
    (errEvent : Event)
    (hloop : removeReadLoop db e e.items [] = .error errEvent) :
    remove_stock_event e idemKey db [] =
      ⟨db, [⟨STOCK_RESPONSES_TOPIC, e.correlationId, errEvent⟩], false⟩ := by
  norm_num [remove_stock_event, removeStockGo, hloop]

theorem remove_stock_event_ok (e : Event) (idemKey : String) (db : StockDb)
    (res : List (String × StockValue))
    (hloop : removeReadLoop db e e.items [] = .ok res) :
    remove_stock_event e idemKey db [] =
      ⟨⟨res.foldl (fun m p => kvSet m p.1 ⟨p.2, some 3600⟩) db.items,
        kvSet db.idem idemKey
          ⟨{ e with etype := EVENT_STOCK_SUBTRACTED }, some 3600⟩⟩,
       [⟨STOCK_RESPONSES_TOPIC, e.correlationId,
         { e with etype := EVENT_STOCK_SUBTRACTED }⟩], false⟩ := by
  norm_num [remove_stock_event, removeStockGo, hloop]

theorem handle_event_replay (e : Event) (db : PaymentDb)
    (schedule : List StoreFault) (stored : IdemEntry)
    (hidem : kvGet db.idem (e.etype ++ ":" ++ e.correlationId) = some stored) :
    handle_event e db schedule =
      ⟨db, [⟨PAYMENT_RESPONSES_TOPIC, stored.event.correlationId,
        stored.event⟩]⟩ := by
  simp only [handle_event, hidem]

theorem handle_event_pay (e : Event) (db : PaymentDb)
    (schedule : List StoreFault) (hp : e.etype = EVENT_PAY)
    (hidem : kvGet db.idem (e.etype ++ ":" ++ e.correlationId) = none) :
    handle_event e db schedule =
      handle_pay_event e (e.etype ++ ":" ++ e.correlationId) db schedule := by
  simp only [handle_event, hidem, if_pos hp]

theorem handle_event_refund (e : Event) (db : PaymentDb)
    (schedule : List StoreFault) (hp : ¬e.etype = EVENT_PAY)
    (hr : e.etype = EVENT_REFUND)
    (hidem : kvGet db.idem (e.etype ++ ":" ++ e.correlationId) = none) :
    handle_event e db schedule =
      handle_refund_event e (e.etype ++ ":" ++ e.correlationId) db schedule := by
  simp only [handle_event, hidem, if_neg hp, if_pos hr]

theorem handle_event_other (e : Event) (db : PaymentDb)
    (schedule : List StoreFault) (hp : ¬e.etype = EVENT_PAY)
    (hr : ¬e.etype = EVENT_REFUND)
    (hidem : kvGet db.idem (e.etype ++ ":" ++ e.correlationId) = none) :
    handle_event e db schedule = ⟨db, []⟩ := by
  simp only [handle_event, hidem, if_neg hp, if_neg hr]

theorem handle_pay_event_user_missing (e : Event) (idemKey : String)
    (db : PaymentDb) (hu : kvGet db.users e.userId = none) :
    handle_pay_event e idemKey db [] =
      ⟨⟨db.users, kvSet db.idem idemKey
          ⟨{ e with error := some "USER NOT FOUND", etype := EVENT_PAYMENT_ERROR },
           some 3600⟩⟩,
       [⟨PAYMENT_RESPONSES_TOPIC, e.correlationId,
         { e with error := some "USER NOT FOUND", etype := EVENT_PAYMENT_ERROR }⟩]⟩ := by
  norm_num [handle_pay_event, payGo, hu]

theorem handle_pay_event_insufficient (e : Event) (idemKey : String)
    (db : PaymentDb) (c : Int) (hu : kvGet db.users e.userId = some c)
    (hneg : c - e.amount < 0) :
    handle_pay_event e idemKey db [] =
      ⟨⟨db.users, kvSet db.idem idemKey
          ⟨{ e with error := some "INSUFFICIENT FUNDS", etype := EVENT_PAYMENT_ERROR },
           some 3600⟩⟩,
       [⟨PAYMENT_RESPONSES_TOPIC, e.correlationId,
         { e with error := some "INSUFFICIENT FUNDS", etype := EVENT_PAYMENT_ERROR }⟩]⟩ := by
  norm_num [handle_pay_event, payGo, hu, hneg]

theorem handle_pay_event_ok (e : Event) (idemKey : String) (db : PaymentDb)
    (c : Int) (hu : kvGet db.users e.userId = some c)
    (hneg : ¬c - e.amount < 0) :
    handle_pay_event e idemKey db [] =
      ⟨⟨kvSet db.users e.userId (c - e.amount),
        kvSet db.idem idemKey
          ⟨{ e with credit := some (c - e.amount),
                    etype := EVENT_PAYMENT_SUCCESS }, some 3600⟩⟩,
       [⟨PAYMENT_RESPONSES_TOPIC, e.correlationId,
         { e with credit := some (c - e.amount),
                  etype := EVENT_PAYMENT_SUCCESS }⟩]⟩ := by
  norm_num [handle_pay_event, payGo, hu, hneg]

theorem handle_refund_event_user_missing (e : Event) (idemKey : String)
    (db : PaymentDb) (hu : kvGet db.users e.userId = none) :
    handle_refund_event e idemKey db [] =
      ⟨⟨db.users, kvSet db.idem idemKey
          ⟨{ e with error := some "USER NOT FOUND", etype := EVENT_REFUND_ERROR },
           some 3600⟩⟩,
       [⟨PAYMENT_RESPONSES_TOPIC, e.correlationId,
         { e with error := some "USER NOT FOUND", etype := EVENT_REFUND_ERROR }⟩]⟩ := by
  norm_num [handle_refund_event, refundGo, hu]

theorem handle_refund_event_ok (e : Event) (idemKey : String)
    (db : PaymentDb) (c : Int) (hu : kvGet db.users e.userId = some c) :
    handle_refund_event e idemKey db [] =
      ⟨⟨kvSet db.users e.userId (c + e.amount),
        kvSet db.idem idemKey
          ⟨{ e with credit := some (c + e.amount),
                    etype := EVENT_REFUND_SUCCESS }, some 3600⟩⟩,
       [⟨PAYMENT_RESPONSES_TOPIC, e.correlationId,
         { e with credit := some (c + e.amount),
                  etype := EVENT_REFUND_SUCCESS }⟩]⟩ := by
  norm_num [handle_refund_event, refundGo, hu]

/-- Helper for C2: a second fault-free delivery of the same command to the
stock service reproduces the first result exactly (the success paths find
the stored outcome under the idempotency key and replay it; the error and
crash paths leave the store untouched and recompute deterministically). -/
theorem handle_events_fixed (e : Event) (db : StockDb) :
    handle_events e (handle_events e db []).db [] = handle_events e db [] := by
  by_cases hf : e.etype = EVENT_FIND_ITEM
  · have h1 := handle_events_find e db [] hf
    rw [h1, find_item_event_db]
    exact h1
  · rcases hidem : kvGet db.idem (e.etype ++ ":" ++ e.correlationId)
        with _ | stored
    · by_cases ha : e.etype = EVENT_ADD_STOCK
      · have h1 := handle_events_add e db [] hf ha hidem
        rcases hloop : addReadLoop db e e.items [] with ⟨⟩ | res
        · have h2 := add_stock_event_crash e (e.etype ++ ":" ++ e.correlationId) db hloop
          rw [h1, h2]
          exact h1.trans h2
        · have h2 := add_stock_event_ok e (e.etype ++ ":" ++ e.correlationId) db res hloop
          rw [h1, h2]
          apply handle_events_replay e _ []
            ⟨{ e with etype := EVENT_STOCK_COMPENSATED }, some 3600⟩ hf
          exact kvGet_kvSet_self db.idem (e.etype ++ ":" ++ e.correlationId) _
      · by_cases hs : e.etype = EVENT_SUBTRACT_STOCK
        · have h1 := handle_events_sub e db [] hf ha hs hidem
          rcases hloop : removeReadLoop db e e.items [] with ev | res
          · have h2 := remove_stock_event_err e (e.etype ++ ":" ++ e.correlationId) db ev hloop
            rw [h1, h2]
            have h3 := handle_events_sub e db [] hf ha hs hidem
            rw [h3, h2]
          · have h2 := remove_stock_event_ok e (e.etype ++ ":" ++ e.correlationId) db res hloop
            rw [h1, h2]
            apply handle_events_replay e _ []
              ⟨{ e with etype := EVENT_STOCK_SUBTRACTED }, some 3600⟩ hf
            exact kvGet_kvSet_self db.idem (e.etype ++ ":" ++ e.correlationId) _
        · have h1 := handle_events_other e db [] hf ha hs hidem
          rw [h1]
          exact h1
    · have h1 := handle_events_replay e db [] stored hf hidem
      rw [h1]
      exact h1

/-- Helper for C2: the payment analogue of `handle_events_fixed`. -/
theorem handle_event_fixed (e : Event) (db : PaymentDb) :
    handle_event e (handle_event e db []).db [] = handle_event e db [] := by
  rcases hidem : kvGet db.idem (e.etype ++ ":" ++ e.correlationId)
      with _ | stored
  · by_cases hp : e.etype = EVENT_PAY
    · have h1 := handle_event_pay e db [] hp hidem
      rcases hu : kvGet db.users e.userId with _ | c
      · have h2 := handle_pay_event_user_missing e (e.etype ++ ":" ++ e.correlationId) db hu
        rw [h1, h2]
        apply handle_event_replay e _ []
          ⟨{ e with error := some "USER NOT FOUND", etype := EVENT_PAYMENT_ERROR }, some 3600⟩
        exact kvGet_kvSet_self db.idem (e.etype ++ ":" ++ e.correlationId) _
      · by_cases hneg : c - e.amount < 0
        · have h2 := handle_pay_event_insufficient e (e.etype ++ ":" ++ e.correlationId) db c hu hneg
          rw [h1, h2]
          apply handle_event_replay e _ []
            ⟨{ e with error := some "INSUFFICIENT FUNDS", etype := EVENT_PAYMENT_ERROR }, some 3600⟩
          exact kvGet_kvSet_self db.idem (e.etype ++ ":" ++ e.correlationId) _
        · have h2 := handle_pay_event_ok e (e.etype ++ ":" ++ e.correlationId) db c hu hneg
          rw [h1, h2]
          apply handle_event_replay e _ []
            ⟨{ e with credit := some (c - e.amount), etype := EVENT_PAYMENT_SUCCESS }, some 3600⟩
          exact kvGet_kvSet_self db.idem (e.etype ++ ":" ++ e.correlationId) _
    · by_cases hr : e.etype = EVENT_REFUND
      · have h1 := handle_event_refund e db [] hp hr hidem
        rcases hu : kvGet db.users e.userId with _ | c
        · have h2 := handle_refund_event_user_missing e (e.etype ++ ":" ++ e.correlationId) db hu
          rw [h1, h2]
          apply handle_event_replay e _ []
            ⟨{ e with error := some "USER NOT FOUND", etype := EVENT_REFUND_ERROR }, some 3600⟩
          exact kvGet_kvSet_self db.idem (e.etype ++ ":" ++ e.correlationId) _
        · have h2 := handle_refund_event_ok e (e.etype ++ ":" ++ e.correlationId) db c hu
          rw [h1, h2]
          apply handle_event_replay e _ []
            ⟨{ e with credit := some (c + e.amount), etype := EVENT_REFUND_SUCCESS }, some 3600⟩
          exact kvGet_kvSet_self db.idem (e.etype ++ ":" ++ e.correlationId) _
      · have h1 := handle_event_other e db [] hp hr hidem
        rw [h1]
        exact h1
  · have h1 := handle_event_replay e db [] stored hidem
    rw [h1]
    exact h1

/-- Helper for C2: `k + 1` fault-free deliveries of a command to the stock
service equal one delivery — same final store, same publication, same crash
flag on the last delivery. -/
theorem iterate_handle_events_eq (e : Event) (db : StockDb) (k : Nat) :
    iterate_handle_events e db k = handle_events e db [] := by
  induction k with
  | zero => rfl
  | succ k ih =>
    show handle_events e (iterate_handle_events e db k).db [] = _
    rw [ih, handle_events_fixed]

/-- Helper for C2: the payment analogue of `iterate_handle_events_eq`. -/
theorem iterate_handle_event_eq (e : Event) (db : PaymentDb) (k : Nat) :
    iterate_handle_event e db k = handle_event e db [] := by
  induction k with
  | zero => rfl
  | succ k ih =>
    show handle_event e (iterate_handle_event e db k).db [] = _
    rw [ih, handle_event_fixed]

/-- C2: delivering the same command event `K` times (`K = k + 1 ≥ 1`) to the
stock or payment handler under a fault-free store yields the same stored
domain state and the same published outcome as one delivery; and whenever
the idempotency key `<event_type>:<correlation_id>` is already present, the
handler republishes the stored outcome verbatim and performs no domain
mutation. -/
theorem command_idempotent_replay (e : Event) (sdb : StockDb)
    (pdb : PaymentDb) (k : Nat) :
    iterate_handle_events e sdb k = handle_events e sdb [] ∧
    iterate_handle_event e pdb k = handle_event e pdb [] ∧
    (∀ stored, e.etype ≠ EVENT_FIND_ITEM →
      kvGet sdb.idem (e.etype ++ ":" ++ e.correlationId) = some stored →
      handle_events e sdb [] =
        ⟨sdb, [⟨STOCK_RESPONSES_TOPIC, e.correlationId, stored.event⟩],
         false⟩) ∧
    (∀ stored, kvGet pdb.idem (e.etype ++ ":" ++ e.correlationId) =
        some stored →
      handle_event e pdb [] =
        ⟨pdb, [⟨PAYMENT_RESPONSES_TOPIC, stored.event.correlationId,
          stored.event⟩]⟩) := by
  refine ⟨iterate_handle_events_eq e sdb k, iterate_handle_event_eq e pdb k,
    ?_, ?_⟩
  · intro stored hf hidem
    simp [handle_events, hf, hidem]
  · intro stored hidem
    simp [handle_event, hidem]

/-- C2 witness: four deliveries of the scenario `SubtractStock` command
equal one delivery. -/
theorem command_idempotent_replay_witness :
    iterate_handle_events evSub1 stockDb1 3 =
      handle_events evSub1 stockDb1 [] :=
  (command_idempotent_replay evSub1 stockDb1 payDb1 3).1

/-- C4: a fault-free `SubtractStock` is all-or-nothing: when some listed
item is missing or would go negative, the store is unchanged and a single
`StockError` is emitted; otherwise every listed item is decremented by its
amount inside the one `MULTI/EXEC` (modelled as one atomic state update), a
single `StockSubtracted` is emitted and the outcome is stored under the
idempotency key; items not listed are never touched.  A partially-applied
state is thus never produced. -/
theorem subtract_all_or_nothing (e : Event) (idemKey : String)
    (db : StockDb) (hnd : (e.items.map Prod.fst).Nodup) :
    (remove_stock_event e idemKey db []).crashed = false ∧
    (if e.items.any (subtractFails db) then
      (remove_stock_event e idemKey db []).db = db ∧
      ∃ msg, (remove_stock_event e idemKey db []).published =
        [⟨STOCK_RESPONSES_TOPIC, e.correlationId,
          { e with error := some msg, etype := EVENT_STOCK_ERROR }⟩]
     else
      (remove_stock_event e idemKey db []).published =
        [⟨STOCK_RESPONSES_TOPIC, e.correlationId,
          { e with etype := EVENT_STOCK_SUBTRACTED }⟩] ∧
      (∀ p ∈ e.items, ∃ en, kvGet db.items p.1 = some en ∧
        p.2 ≤ en.val.stock ∧
        kvGet (remove_stock_event e idemKey db []).db.items p.1 =
          some ⟨⟨en.val.stock - p.2, en.val.price⟩, some 3600⟩) ∧
      (remove_stock_event e idemKey db []).db.idem =
        kvSet db.idem idemKey
          ⟨{ e with etype := EVENT_STOCK_SUBTRACTED }, some 3600⟩) ∧
    (∀ id, id ∉ e.items.map Prod.fst →
      kvGet (remove_stock_event e idemKey db []).db.items id =
        kvGet db.items id) := by
  by_cases hany : e.items.any (subtractFails db) = true
  · obtain ⟨msg, hmsg⟩ := removeReadLoop_error_spec db e e.items [] hany
    have h2 := remove_stock_event_err e idemKey db _ hmsg
    rw [h2]
    refine ⟨rfl, ?_, ?_⟩
    · rw [if_pos hany]
      exact ⟨rfl, msg, rfl⟩
    · intro id _
      rfl
  · have hany' : e.items.any (subtractFails db) = false := by
      revert hany
      cases e.items.any (subtractFails db) <;> simp
    obtain ⟨res, hres⟩ := removeReadLoop_ok_spec db e e.items [] hany'
    have h2 := remove_stock_event_ok e idemKey db res hres
    rw [h2, if_neg hany]
    refine ⟨rfl, ⟨rfl, ?_, rfl⟩, ?_⟩
    · intro p hp
      obtain ⟨en, hen, hneg2, hget⟩ :=
        removeReadLoop_get_of_mem db e e.items [] res hnd hres p hp
      refine ⟨en, hen, by omega, ?_⟩
      have hndres := removeReadLoop_keys_nodup db e e.items [] res
        (by simp) hres
      exact kvGet_foldl_kvSet_mem_nodup
        (fun v => StockEntry.mk v (some 3600)) res db.items p.1 _ hndres hget
    · intro id hid
      have hnone : kvGet res id = none :=
        removeReadLoop_not_touched db e e.items [] res id hid hres
      have hmem : id ∉ res.map Prod.fst := (kvGet_eq_none_iff res id).mp hnone
      show kvGet (res.foldl
        (fun m p => kvSet m p.1 (StockEntry.mk p.2 (some 3600))) db.items) id =
        kvGet db.items id
      exact kvGet_foldl_kvSet_not_mem (fun v => StockEntry.mk v (some 3600))
        res db.items id hmem

/-- C4 witness: the scenario subtract command against the scenario store. -/
theorem subtract_all_or_nothing_witness :
    (remove_stock_event evSub1 "SubtractStock:corr-2" stockDb1 []).crashed =
      false :=
  (subtract_all_or_nothing evSub1 "SubtractStock:corr-2" stockDb1
    (by decide)).1

/-! ## Saga engine lemmas -/

theorem rangeDown_mem (k i : Nat) : i ∈ rangeDown k ↔ i < k := by
  induction k with
  | zero => simp [rangeDown]
  | succ n ih =>
    simp only [rangeDown, List.mem_cons, ih]
    omega

theorem rangeDown_pairwise (k : Nat) :
    List.Pairwise (fun a b => b < a) (rangeDown k) := by
  induction k with
  | zero => exact List.Pairwise.nil
  | succ n ih =>
    refine List.Pairwise.cons ?_ ih
    intro i hi
    exact (rangeDown_mem n i).mp hi

/-- What `aborting` does to the manager state: with awaitable callables the
saga is deleted; with synchronous callables the first awaited call raises
before `abort_distributed_transaction` can delete anything, so the map is
untouched. -/
theorem aborting_state (aw : Bool) (st : SagaManagerState) (sagaId : String)
    (saga : Saga) (e : Event) :
    (aborting aw st sagaId saga e).state =
      if aw then ⟨kvRemove st.ongoingSagas sagaId⟩ else st := by
  cases aw
  · simp only [aborting, Bool.false_eq_true, if_false]
    split <;> rfl
  · simp [aborting]

/-- Helper for C3: whatever `event_handling` does, a saga record still in
the map afterwards has a `current_transaction_index` at least as large as
before — the engine only ever increments it (or deletes the saga). -/
theorem event_handling_monotone (aw : Bool) (st : SagaManagerState)
    (e : Event) (hnd : (st.ongoingSagas.map Prod.fst).Nodup) (id : String)
    (r r' : SagaRecord) (h : kvGet st.ongoingSagas id = some r)
    (h' : kvGet (event_handling aw st e).state.ongoingSagas id = some r') :
    r.saga.currentTransactionIndex ≤ r'.saga.currentTransactionIndex := by
  rcases hfind : get_saga_id_from_event st e.correlationId with _ | sagaId <;>
    simp only [event_handling, hfind] at h'
  · have h3 := h.symm.trans h'
    injection h3 with h4
    rw [h4]
  · rcases hrec : kvGet st.ongoingSagas sagaId with _ | record <;>
      simp only [hrec] at h'
    · have h3 := h.symm.trans h'
      injection h3 with h4
      rw [h4]
    · by_cases hc : e.etype ∈ record.saga.mapping.correctEvents
      · rw [if_pos hc] at h'
        rcases hexp : record.saga.mapping.correctEvents.get?
            record.saga.currentTransactionIndex with _ | expected <;>
          simp only [hexp] at h'
        · have h3 := h.symm.trans h'
          injection h3 with h4
          rw [h4]
        · by_cases heq : expected = e.etype
          · rw [if_pos heq] at h'
            by_cases hfin : record.saga.currentTransactionIndex + 1 =
                record.saga.numTransactions
            · rw [if_pos hfin] at h'
              cases aw
              · simp only [Bool.false_eq_true, if_false] at h'
                rw [aborting_state] at h'
                simp only [Bool.false_eq_true, if_false] at h'
                by_cases hid : id = sagaId
                · subst hid
                  rw [kvGet_kvSet_self] at h'
                  injection h' with h2
                  rw [← h2]
                  have h3 := h.symm.trans hrec
                  injection h3 with h4
                  rw [h4]
                  exact Nat.le_succ _
                · rw [kvGet_kvSet_ne _ _ _ _ hid] at h'
                  have h3 := h.symm.trans h'
                  injection h3 with h4
                  rw [h4]
              · simp only [eq_self_iff_true, if_true] at h'
                by_cases hid : id = sagaId
                · subst hid
                  rw [kvGet_kvRemove_self _ _
                    (kvSet_keys_nodup _ _ _ hnd)] at h'
                  exact absurd h' (by simp)
                · rw [kvGet_kvRemove_ne _ _ _ hid,
                    kvGet_kvSet_ne _ _ _ _ hid] at h'
                  have h3 := h.symm.trans h'
                  injection h3 with h4
                  rw [h4]
            · rw [if_neg hfin] at h'
              by_cases hlt : record.saga.currentTransactionIndex + 1 <
                  record.saga.numTransactions
              · rw [if_pos hlt] at h'
                cases aw
                · simp only [Bool.false_eq_true, if_false] at h'
                  rw [aborting_state] at h'
                  simp only [Bool.false_eq_true, if_false] at h'
                  by_cases hid : id = sagaId
                  · subst hid
                    rw [kvGet_kvSet_self] at h'
                    injection h' with h2
                    rw [← h2]
                    have h3 := h.symm.trans hrec
                    injection h3 with h4
                    rw [h4]
                    exact Nat.le_succ _
                  · rw [kvGet_kvSet_ne _ _ _ _ hid] at h'
                    have h3 := h.symm.trans h'
                    injection h3 with h4
                    rw [h4]
                · simp only [eq_self_iff_true, if_true] at h'
                  by_cases hid : id = sagaId
                  · subst hid
                    rw [kvGet_kvSet_self] at h'
                    injection h' with h2
                    rw [← h2]
                    have h3 := h.symm.trans hrec
                    injection h3 with h4
                    rw [h4]
                    exact Nat.le_succ _
                  · rw [kvGet_kvSet_ne _ _ _ _ hid] at h'
                    have h3 := h.symm.trans h'
                    injection h3 with h4
                    rw [h4]
              · rw [if_neg hlt] at h'
                by_cases hid : id = sagaId
                · subst hid
                  rw [kvGet_kvSet_self] at h'
                  injection h' with h2
                  rw [← h2]
                  have h3 := h.symm.trans hrec
                  injection h3 with h4
                  rw [h4]
                  exact Nat.le_succ _
                · rw [kvGet_kvSet_ne _ _ _ _ hid] at h'
                  have h3 := h.symm.trans h'
                  injection h3 with h4
                  rw [h4]
          · rw [if_neg heq, aborting_state] at h'
            cases aw
            · simp only [Bool.false_eq_true, if_false] at h'
              have h3 := h.symm.trans h'
              injection h3 with h4
              rw [h4]
            · simp only [eq_self_iff_true, if_true] at h'
              by_cases hid : id = sagaId
              · subst hid
                rw [kvGet_kvRemove_self _ _ hnd] at h'
                exact absurd h' (by simp)
              · rw [kvGet_kvRemove_ne _ _ _ hid] at h'
                have h3 := h.symm.trans h'
                injection h3 with h4
                rw [h4]
      · rw [if_neg hc] at h'
        by_cases he : e.etype ∈ record.saga.mapping.errorEvents
        · rw [if_pos he, aborting_state] at h'
          cases aw
          · simp only [Bool.false_eq_true, if_false] at h'
            have h3 := h.symm.trans h'
            injection h3 with h4
            rw [h4]
          · simp only [eq_self_iff_true, if_true] at h'
            by_cases hid : id = sagaId
            · subst hid
              rw [kvGet_kvRemove_self _ _ hnd] at h'
              exact absurd h' (by simp)
            · rw [kvGet_kvRemove_ne _ _ _ hid] at h'
              have h3 := h.symm.trans h'
              injection h3 with h4
              rw [h4]
        · rw [if_neg he] at h'
          have h3 := h.symm.trans h'
          injection h3 with h4
          rw [h4]

/-- C3 (as stated, refuted): the claim says an aborted saga runs the
compensations for indices `step_index-1 … 0`, then the abort action, and is
removed from the ongoing-saga map.  With the orchestrator's synchronous
callables the first awaited compensation raises `TypeError` right after its
side effect: for the scenario saga aborted at `step_index = 1` by a
`PaymentError`, only compensation 0 is invoked, no abort action runs, and
the saga is still registered afterwards. -/
theorem abort_skips_abort_and_removal :
    (event_handling false stManager1 evPayErr1).actions =
      [SagaAction.runCompensation 0] ∧
    kvGet (event_handling false stManager1 evPayErr1).state.ongoingSagas
      "corr-1" ≠ none := by
  decide

/-- C3 (amended): with genuinely awaitable callables the engine does exactly
what the claim says — on an error event or an out-of-order success event it
invokes the compensations at indices `step_index-1, …, 0` in strictly
decreasing order (exactly the indices below `step_index`), then the abort
action, then deletes the saga and raises `SagaError`; `step_index` itself
never decreases under any handling (for any saga still in a duplicate-free
map).  With the orchestrator's synchronous callables, however, the awaited
calls raise `TypeError`: the abort path leaves the map untouched and its
actions stop at the first pending compensation (the abort event is emitted
only when no compensation is pending). -/
theorem saga_abort_spec (st : SagaManagerState) (e : Event) (sagaId : String)
    (record : SagaRecord)
    (hfind : get_saga_id_from_event st e.correlationId = some sagaId)
    (hrec : kvGet st.ongoingSagas sagaId = some record)
    (htrig : (e.etype ∉ record.saga.mapping.correctEvents ∧
        e.etype ∈ record.saga.mapping.errorEvents) ∨
      (e.etype ∈ record.saga.mapping.correctEvents ∧
        ∃ expected, record.saga.mapping.correctEvents.get?
            record.saga.currentTransactionIndex = some expected ∧
          expected ≠ e.etype)) :
    event_handling true st e =
      ⟨⟨kvRemove st.ongoingSagas sagaId⟩,
       (rangeDown record.saga.currentTransactionIndex).map
           SagaAction.runCompensation ++
         [SagaAction.abortEmit
           (terminalEvent record.saga record.saga.mapping.abortEvent e)],
       HandleOutcome.sagaError⟩ ∧
    List.Pairwise (fun a b => b < a)
      (rangeDown record.saga.currentTransactionIndex) ∧
    (∀ i, i ∈ rangeDown record.saga.currentTransactionIndex ↔
      i < record.saga.currentTransactionIndex) ∧
    (event_handling false st e).state = st ∧
    ((event_handling false st e).actions =
      match rangeDown record.saga.currentTransactionIndex with
      | [] => [SagaAction.abortEmit
          (terminalEvent record.saga record.saga.mapping.abortEvent e)]
      | i :: _ => [SagaAction.runCompensation i]) ∧
    (∀ (aw : Bool) (st₂ : SagaManagerState) (e₂ : Event) (id : String)
        (r r' : SagaRecord), (st₂.ongoingSagas.map Prod.fst).Nodup →
      kvGet st₂.ongoingSagas id = some r →
      kvGet (event_handling aw st₂ e₂).state.ongoingSagas id = some r' →
      r.saga.currentTransactionIndex ≤ r'.saga.currentTransactionIndex) := by
  have habort : ∀ aw : Bool,
      event_handling aw st e = aborting aw st sagaId record.saga e := by
    intro aw
    rcases htrig with ⟨hc, he⟩ | ⟨hc, expected, hexp, hne⟩
    · simp only [event_handling, hfind, hrec, if_neg hc, if_pos he]
    · simp only [event_handling, hfind, hrec, if_pos hc, hexp, if_neg hne]
  refine ⟨?_, rangeDown_pairwise _, fun i => rangeDown_mem _ i, ?_, ?_,
    fun aw st₂ e₂ id r r' hnd₂ h h' =>
      event_handling_monotone aw st₂ e₂ hnd₂ id r r' h h'⟩
  · rw [habort true]
    simp [aborting]
  · rw [habort false, aborting_state]
    simp
  · rw [habort false]
    rcases hrd : rangeDown record.saga.currentTransactionIndex
        with _ | ⟨i, rest⟩ <;>
      simp [aborting, hrd]

/-- C3 witness: the amended statement at the scenario saga (one completed
step, aborted by `PaymentError`). -/
theorem saga_abort_spec_witness :
    (event_handling false stManager1 evPayErr1).state = stManager1 :=
  (saga_abort_spec stManager1 evPayErr1 "corr-1"
    ⟨⟨"corr-1", CHECKOUT_EVENT_MAPPING, 2, 1⟩, ["corr-1", "corr-1"],
     ["corr-1", "corr-1"]⟩
    (by decide) (by decide) (Or.inl ⟨by decide, by decide⟩)).2.2.2.1

end CheckoutSaga
